import Mathlib

/-!
Shallow embedding of the hyper-psx PSX emulator core (Rust) into Lean 4.

Machine integers are modelled as `Nat` with explicit reduction modulo `2^w`
where the Rust code relies on wrapping; signed views are obtained through
explicit two's-complement conversions to `Int`.  Fallible code paths
(`panic!`, `unimplemented!`, `unreachable!`, `todo!`) are modelled with
`Option`, `none` standing for an abort.
-/

namespace HyperPsx

/-- Reduce a natural number to a 32-bit value (`u32` wrapping). -/
def w32 (n : Nat) : Nat := n % 4294967296

/-- Reduce a natural number to an 8-bit value (`as u8` cast). -/
def w8 (n : Nat) : Nat := n % 256

/-- Reduce a natural number to a 16-bit value (`as u16` cast). -/
def w16 (n : Nat) : Nat := n % 65536

/-- `u16 -> u32` sign extension (`self as i16 as u32`, utils/sext.rs). -/
def signExtend16 (n : Nat) : Nat := if n < 32768 then n else n + 4294901760

/-- `u8 -> u16` sign extension (`self as i8 as u16`, utils/sext.rs). -/
def signExtend8 (n : Nat) : Nat := if n < 128 then n else n + 65280

/-- `u16 -> u32` zero extension (cpu/extension.rs). -/
def zeroExtend16 (n : Nat) : Nat := n

/-- Two's-complement reading of a `u32` bit pattern as an `i32`. -/
def toI32 (n : Nat) : Int := if n < 2147483648 then (n : Int) else (n : Int) - 4294967296

/-- Bit cast of an `i32` value into its `u32` pattern. -/
def ofI32 (i : Int) : Nat := (i % 4294967296).toNat

/-- Bit cast of an `i64` value into its `u64` pattern (used by MULT). -/
def ofI64 (i : Int) : Nat := (i % 18446744073709551616).toNat

/-- Arithmetic right shift of a `u32` bit pattern (`(t as i32) >> sa`). -/
def sra32 (t sa : Nat) : Nat :=
  if t < 2147483648 then t >>> sa
  else w32 ((t >>> sa) ||| w32 (4294967295 <<< (32 - sa)))

/-! ## bus/memory.rs: the byte view of `u16` and `u32` registers -/

/-- `impl Memory for u32`: overwrite byte `offset` of `x` with `value`. -/
def u32WriteU8 (x offset value : Nat) : Nat :=
  (x &&& (4294967295 ^^^ (255 <<< (offset * 8)))) ||| (value <<< (offset * 8))

/-- `impl Memory for u32`: read byte `offset` of `x`. -/
def u32ReadU8 (x offset : Nat) : Nat := (x >>> (offset * 8)) &&& 255

/-- `impl Memory for u16`: overwrite byte `offset` of `x` with `value`. -/
def u16WriteU8 (x offset value : Nat) : Nat :=
  (x &&& (65535 ^^^ (255 <<< (offset * 8)))) ||| (value <<< (offset * 8))

/-- `impl Memory for u16`: read byte `offset` of `x`. -/
def u16ReadU8 (x offset : Nat) : Nat := (x >>> (offset * 8)) &&& 255

/-! ## bus/ram.rs -/

/-- The RAM component: a 2 MiB byte array, modelled as a function from
offsets to byte values. -/
structure Ram where
  data : Nat → Nat

namespace Ram

/-- `Ram::write_u8` (bounds assertion is a debug assertion on in-range
call sites; the byte store itself). -/
def write_u8 (r : Ram) (offset value : Nat) : Ram :=
  ⟨fun a => if a = offset then value else r.data a⟩

/-- `Ram::read_u8`. -/
def read_u8 (r : Ram) (offset : Nat) : Nat := r.data offset

/-- `Ram::new`: zero-initialised. -/
def new : Ram := ⟨fun _ => 0⟩

end Ram

/-- Little-endian 32-bit read of four RAM bytes (for stating theorems about
what a DMA transfer left in memory). -/
def ramWord (r : Ram) (a : Nat) : Nat :=
  r.data a + (r.data (a + 1)) * 256 + (r.data (a + 2)) * 65536 +
    (r.data (a + 3)) * 16777216

/-! ## bios.rs -/

/-- The BIOS component: a read-only byte array. -/
structure Bios where
  data : Nat → Nat

namespace Bios

/-- `Bios::read_u8`. -/
def read_u8 (b : Bios) (offset : Nat) : Nat := b.data offset

/-- `Bios::write_u8`: the BIOS is read-only, writes are absorbed. -/
def write_u8 (b : Bios) (_offset _value : Nat) : Bios := b

end Bios

/-! ## bus/range.rs -/

/-- An address range `[start, start+length)`. -/
structure Range where
  start : Nat
  length : Nat

/-- `Range::contains`: the offset of `address` inside the range, if any. -/
def Range.contains (r : Range) (address : Nat) : Option Nat :=
  if address ≥ r.start ∧ address < r.start + r.length then some (address - r.start)
  else none

/-! ## dma/channel.rs -/

/-- Channel id. -/
inductive ChannelId where
  | MacroBlockIn
  | MacroBlockOut
  | Gpu
  | Cdrom
  | Spu
  | Pio
  | Otc
deriving DecidableEq, Repr

/-- Channel transfer direction. -/
inductive TransferDirection where
  | ToRam
  | FromRam
deriving DecidableEq, Repr

/-- Channel memory step. -/
inductive MemoryAddressStep where
  | Forward
  | Backward
deriving DecidableEq, Repr

/-- Channel chopping. -/
inductive ChoppingMode where
  | Normal
  | Chopping
deriving DecidableEq, Repr

/-- Channel transfer synchronisation. -/
inductive SyncMode where
  | Immediately
  | SyncBlocks
  | LinkedList
deriving DecidableEq, Repr

/-- Channel start/busy. -/
inductive Busy where
  | Completed
  | Busy
deriving DecidableEq, Repr

/-- Channel start/trigger. -/
inductive Trigger where
  | Normal
  | ManualStart
deriving DecidableEq, Repr

/-- Channel (unknown) pause. -/
inductive UnknownPause where
  | No
  | Pause
deriving DecidableEq, Repr

/-- A DMA channel. -/
structure Channel where
  id : ChannelId
  baseAddress : Nat
  blockSize : Nat
  blockCount : Nat
  transferDirection : TransferDirection
  memoryAddressStep : MemoryAddressStep
  choppingMode : ChoppingMode
  syncMode : SyncMode
  choppingDmaWindowSize : Nat
  choppingCpuWindowSize : Nat
  busy : Busy
  trigger : Trigger
  unknownPause : UnknownPause
  unknown : Bool

namespace Channel

/-- `Channel::new` (`Default` gives the first variant of each enum and zero
for the integers). -/
def new (id : ChannelId) : Channel :=
  { id := id, baseAddress := 0, blockSize := 0, blockCount := 0,
    transferDirection := .ToRam, memoryAddressStep := .Forward,
    choppingMode := .Normal, syncMode := .Immediately,
    choppingDmaWindowSize := 0, choppingCpuWindowSize := 0,
    busy := .Completed, trigger := .Normal, unknownPause := .No,
    unknown := false }

/-- `Channel::ready`. -/
def ready (ch : Channel) : Bool :=
  if ch.busy ≠ Busy.Busy then false
  else if ch.syncMode ≠ SyncMode.Immediately then true
  else ch.trigger == Trigger.ManualStart

/-- `Channel::finish`. -/
def finish (ch : Channel) : Channel :=
  { ch with busy := .Completed, trigger := .Normal }

/-- One little-endian 32-bit word store decomposed into the four
`ram.write_u8` calls of `Channel::transfer_immediately`. -/
def writeWord (ram : Ram) (address value : Nat) : Ram :=
  ((((ram.write_u8 address (value &&& 255)).write_u8
      (w32 (address + 1)) ((value >>> 8) &&& 255)).write_u8
      (w32 (address + 2)) ((value >>> 16) &&& 255)).write_u8
      (w32 (address + 3)) ((value >>> 24) &&& 255))

/-- The `while block_count != 0` loop of `Channel::transfer_immediately`.
`none` models the `unimplemented!`/`unreachable!` aborts for non-OTC
channels and from-RAM transfers. -/
def transferLoop (ch : Channel) (step : Nat) :
    Nat → Nat → Nat → Ram → Option Ram
  | 0, _, _, ram => some ram
  | Nat.succ k, address, lastAddress, ram =>
    match ch.transferDirection with
    | .ToRam =>
      match ch.id with
      | .Otc =>
        let value := if k = 0 then 16777215 else lastAddress
        transferLoop ch step k (w32 (address + step)) address
          (writeWord ram address value)
      | _ => none
    | .FromRam => none

/-- `Channel::transfer_immediately`. -/
def transferImmediately (ch : Channel) (ram : Ram) : Option (Channel × Ram) :=
  let memoryAddressStep : Nat :=
    match ch.memoryAddressStep with
    | .Forward => 4
    | .Backward => 4294967292
  (transferLoop ch memoryAddressStep ch.blockSize ch.baseAddress ch.baseAddress
      ram).map (fun ram => (ch.finish, ram))

/-- `Channel::start_transfer`: only the immediate sync mode is implemented. -/
def startTransfer (ch : Channel) (ram : Ram) : Option (Channel × Ram) :=
  match ch.syncMode with
  | .Immediately => ch.transferImmediately ram
  | _ => none

/-- The `match` decoding `transfer_direction` (`unreachable!` is `none`). -/
def decodeDirection (v : Nat) : Option TransferDirection :=
  match v with
  | 0 => some .ToRam
  | 1 => some .FromRam
  | _ => none

/-- The `match` decoding `memory_address_step`. -/
def decodeStep (v : Nat) : Option MemoryAddressStep :=
  match v with
  | 0 => some .Forward
  | 1 => some .Backward
  | _ => none

/-- The `match` decoding `chopping_mode`. -/
def decodeChopping (v : Nat) : Option ChoppingMode :=
  match v with
  | 0 => some .Normal
  | 1 => some .Chopping
  | _ => none

/-- The `match` decoding `sync_mode`. -/
def decodeSync (v : Nat) : Option SyncMode :=
  match v with
  | 0 => some .Immediately
  | 1 => some .SyncBlocks
  | 2 => some .LinkedList
  | _ => none

/-- The `match` decoding `busy`. -/
def decodeBusy (v : Nat) : Option Busy :=
  match v with
  | 0 => some .Completed
  | 1 => some .Busy
  | _ => none

/-- The `match` decoding `trigger`. -/
def decodeTrigger (v : Nat) : Option Trigger :=
  match v with
  | 0 => some .Normal
  | 1 => some .ManualStart
  | _ => none

/-- The `match` decoding `unknown_pause`. -/
def decodeUnknownPause (v : Nat) : Option UnknownPause :=
  match v with
  | 0 => some .No
  | 1 => some .Pause
  | _ => none

/-- `impl Memory for Channel`: `write_u8`.  `none` models the
`unreachable!` arms. -/
def write_u8 (ch : Channel) (offset value : Nat) : Option Channel :=
  if offset ≤ 2 then
    some { ch with baseAddress := u32WriteU8 ch.baseAddress offset value }
  else if offset = 3 then some ch
  else if offset = 4 ∨ offset = 5 then
    some { ch with blockSize := u16WriteU8 ch.blockSize (offset - 4) value }
  else if offset = 6 ∨ offset = 7 then
    some { ch with blockCount := u16WriteU8 ch.blockCount (offset - 6) value }
  else if offset = 8 then
    (decodeDirection (value &&& 1)).bind fun td =>
    (decodeStep ((value &&& 2) >>> 1)).map fun st =>
    { ch with transferDirection := td, memoryAddressStep := st }
  else if offset = 9 then
    (decodeChopping (value &&& 1)).bind fun cm =>
    (decodeSync ((value &&& 6) >>> 1)).map fun sm =>
    { ch with choppingMode := cm, syncMode := sm }
  else if offset = 10 then
    some { ch with choppingDmaWindowSize := value &&& 7,
                   choppingCpuWindowSize := (value &&& 112) >>> 4 }
  else if offset = 11 then
    -- `let busy = value & 0b00000001;`
    -- `let trigger = value & (0b00010000) >> 4;` — note the Rust operator
    -- precedence: `>>` binds tighter than `&`, so this is `value & 1`,
    -- not `(value & 0b00010000) >> 4`.
    -- `let unknown_pause = (value & 0b00100000) >> 5;`
    (decodeBusy (value &&& 1)).bind fun b =>
    (decodeTrigger (value &&& (16 >>> 4))).bind fun t =>
    (decodeUnknownPause ((value &&& 32) >>> 5)).map fun p =>
    { ch with busy := b, trigger := t, unknownPause := p,
              unknown := ((value &&& 64) >>> 6) != 0 }
  else none

/-- `impl Memory for Channel`: `read_u8`. -/
def read_u8 (ch : Channel) (offset : Nat) : Option Nat :=
  if offset ≤ 2 then some (u32ReadU8 ch.baseAddress offset)
  else if offset = 3 then some 0
  else if offset = 4 ∨ offset = 5 then some (u16ReadU8 ch.blockSize (offset - 4))
  else if offset = 6 ∨ offset = 7 then some (u16ReadU8 ch.blockCount (offset - 6))
  else if offset = 8 then
    some ((match ch.transferDirection with | .ToRam => 0 | .FromRam => 1) |||
      ((match ch.memoryAddressStep with | .Forward => 0 | .Backward => 1) <<< 1))
  else if offset = 9 then
    some ((match ch.choppingMode with | .Normal => 0 | .Chopping => 1) |||
      ((match ch.syncMode with | .Immediately => 0 | .SyncBlocks => 1 | .LinkedList => 2) <<< 1))
  else if offset = 10 then
    some (ch.choppingDmaWindowSize ||| (ch.choppingCpuWindowSize <<< 4))
  else if offset = 11 then
    some ((match ch.busy with | .Completed => 0 | .Busy => 1) |||
      ((match ch.trigger with | .Normal => 0 | .ManualStart => 1) <<< 4) |||
      ((match ch.unknownPause with | .No => 0 | .Pause => 1) <<< 5) |||
      ((if ch.unknown then 1 else 0) <<< 6))
  else none

end Channel

/-! ## dma/mod.rs -/

/-- The DMA component: DPCR, DICR and the seven channels (indexed 0..6). -/
structure Dma where
  control : Nat
  interrupt : Nat
  channels : Nat → Channel

namespace Dma

/-- `Dma::new`. -/
def new : Dma :=
  { control := 0x07654321, interrupt := 0,
    channels := fun i =>
      if i = 0 then Channel.new .MacroBlockIn
      else if i = 1 then Channel.new .MacroBlockOut
      else if i = 2 then Channel.new .Gpu
      else if i = 3 then Channel.new .Cdrom
      else if i = 4 then Channel.new .Spu
      else if i = 5 then Channel.new .Pio
      else Channel.new .Otc }

/-- `Dma::channel_id`. -/
def channelId (offset : Nat) : Nat := (offset >>> 4) &&& 15

/-- Whether a DMA-window offset falls in one of the per-channel register
blocks `0x00..=0x0c | 0x10..=0x1c | ... | 0x60..=0x6c`. -/
def isChannelOffset (offset : Nat) : Bool :=
  decide (offset < 0x70 ∧ (offset &&& 15) ≤ 0x0c)

/-- `impl Memory for Dma`: `write_u8`. -/
def write_u8 (dma : Dma) (offset value : Nat) : Option Dma :=
  if isChannelOffset offset then
    let cid := channelId offset
    let channelOffset := offset - cid * 16
    ((dma.channels cid).write_u8 channelOffset value).map fun ch =>
      { dma with channels := fun i => if i = cid then ch else dma.channels i }
  else if 0x70 ≤ offset ∧ offset ≤ 0x73 then
    some { dma with control := u32WriteU8 dma.control (offset - 0x70) value }
  else if 0x74 ≤ offset ∧ offset ≤ 0x77 then
    some { dma with interrupt := u32WriteU8 dma.interrupt (offset - 0x74) value }
  else none

/-- `impl Memory for Dma`: `read_u8`. -/
def read_u8 (dma : Dma) (offset : Nat) : Option Nat :=
  if isChannelOffset offset then
    let cid := channelId offset
    (dma.channels cid).read_u8 (offset - cid * 16)
  else if 0x70 ≤ offset ∧ offset ≤ 0x73 then
    some (u32ReadU8 dma.control (offset - 0x70))
  else if 0x74 ≤ offset ∧ offset ≤ 0x77 then
    some (u32ReadU8 dma.interrupt (offset - 0x74))
  else none

end Dma

/-! ## bus/mod.rs -/

/-- The Bus component. -/
structure Bus where
  bios : Bios
  ram : Ram
  dma : Dma

namespace Bus

/-- The fixed region-mask table indexed by address bits 31..29. -/
def regionMask (bits : Nat) : Nat :=
  if bits = 4 then 0x7fffffff
  else if bits = 5 then 0x1fffffff
  else 0xffffffff

/-- `Bus::mask_address`. -/
def maskAddress (address : Nat) : Nat :=
  address &&& regionMask (address >>> 29)

def RAM_RANGE : Range := ⟨0x00000000, 0x1f000000⟩
def EXPANSION_REGION_1_RANGE : Range := ⟨0x1f000000, 0x800000⟩
def SCRATCHPAD_RANGE : Range := ⟨0x1f800000, 0x400⟩
def MEMORY_CONTROL_1_RANGE : Range := ⟨0x1f801000, 0x24⟩
def PERIPHERAL_IO_PORTS_RANGE : Range := ⟨0x1f801040, 0x20⟩
def MEMORY_CONTROL_2_RANGE : Range := ⟨0x1f801060, 0x4⟩
def INTERRUPT_CONTROL_RANGE : Range := ⟨0x1f801070, 0x8⟩
def DMA_REGISTERS_RANGE : Range := ⟨0x1f801080, 0x80⟩
def TIMERS_RANGE : Range := ⟨0x1f801100, 0x30⟩
def CDROM_REGISTERS_RANGE : Range := ⟨0x1f801800, 0x4⟩
def GPU_REGISTERS_RANGE : Range := ⟨0x1f801810, 0x8⟩
def MDEC_REGISTERS_RANGE : Range := ⟨0x1f801820, 0x8⟩
def SPU_RANGE : Range := ⟨0x1f801c00, 0x400⟩
def EXPANSION_REGION_2_RANGE : Range := ⟨0x1f802000, 0x88⟩
def EXPANSION_REGION_3_RANGE : Range := ⟨0x1fa00000, 0x200000⟩
def BIOS_RANGE : Range := ⟨0x1fc00000, 0x80000⟩
def MEMORY_CONTROL_3_RANGE : Range := ⟨0xfffe0130, 0x4⟩

/-- `Bus::write_u8`: route a byte store through the decode table.  A write
landing in the DMA window additionally runs a ready channel's transfer
(`channel.start_transfer(&mut self.ram)`).  `none` models the access
violation `panic!` and the aborts inside DMA. -/
def write_u8 (bus : Bus) (address value : Nat) : Option Bus :=
  let physical := maskAddress address
  match RAM_RANGE.contains physical with
  | some offset => some { bus with ram := bus.ram.write_u8 offset value }
  | none =>
  if (EXPANSION_REGION_1_RANGE.contains physical).isSome then some bus
  else if (SCRATCHPAD_RANGE.contains physical).isSome then some bus
  else if (MEMORY_CONTROL_1_RANGE.contains physical).isSome then some bus
  else if (PERIPHERAL_IO_PORTS_RANGE.contains physical).isSome then some bus
  else if (MEMORY_CONTROL_2_RANGE.contains physical).isSome then some bus
  else if (INTERRUPT_CONTROL_RANGE.contains physical).isSome then some bus
  else
  match DMA_REGISTERS_RANGE.contains physical with
  | some offset =>
    (bus.dma.write_u8 offset value).bind fun dma =>
    if Dma.isChannelOffset offset then
      let cid := Dma.channelId offset
      let channel := dma.channels cid
      if channel.ready then
        (channel.startTransfer bus.ram).map fun chRam =>
          { bus with
            dma := { dma with channels := fun i =>
              if i = cid then chRam.1 else dma.channels i },
            ram := chRam.2 }
      else some { bus with dma := dma }
    else some { bus with dma := dma }
  | none =>
  if (TIMERS_RANGE.contains physical).isSome then some bus
  else if (CDROM_REGISTERS_RANGE.contains physical).isSome then some bus
  else if (GPU_REGISTERS_RANGE.contains physical).isSome then some bus
  else if (MDEC_REGISTERS_RANGE.contains physical).isSome then some bus
  else if (SPU_RANGE.contains physical).isSome then some bus
  else if (EXPANSION_REGION_2_RANGE.contains physical).isSome then some bus
  else if (EXPANSION_REGION_3_RANGE.contains physical).isSome then some bus
  else
  match BIOS_RANGE.contains physical with
  | some offset => some { bus with bios := bus.bios.write_u8 offset value }
  | none =>
  if (MEMORY_CONTROL_3_RANGE.contains physical).isSome then some bus
  else none

/-- `Bus::read_u8`.  `none` models the access violation `panic!`. -/
def read_u8 (bus : Bus) (address : Nat) : Option Nat :=
  let physical := maskAddress address
  match RAM_RANGE.contains physical with
  | some offset => some (bus.ram.read_u8 offset)
  | none =>
  if (EXPANSION_REGION_1_RANGE.contains physical).isSome then some 0xff
  else if (SCRATCHPAD_RANGE.contains physical).isSome then some 0
  else if (MEMORY_CONTROL_1_RANGE.contains physical).isSome then some 0
  else if (PERIPHERAL_IO_PORTS_RANGE.contains physical).isSome then some 0
  else if (MEMORY_CONTROL_2_RANGE.contains physical).isSome then some 0
  else if (INTERRUPT_CONTROL_RANGE.contains physical).isSome then some 0
  else
  match DMA_REGISTERS_RANGE.contains physical with
  | some offset => bus.dma.read_u8 offset
  | none =>
  if (TIMERS_RANGE.contains physical).isSome then some 0
  else if (CDROM_REGISTERS_RANGE.contains physical).isSome then some 0
  else
  match GPU_REGISTERS_RANGE.contains physical with
  | some offset =>
    if 4 ≤ offset ∧ offset ≤ 7 then some (u32ReadU8 0x1c000000 (offset - 4))
    else some 0
  | none =>
  if (MDEC_REGISTERS_RANGE.contains physical).isSome then some 0
  else if (SPU_RANGE.contains physical).isSome then some 0
  else if (EXPANSION_REGION_2_RANGE.contains physical).isSome then some 0
  else if (EXPANSION_REGION_3_RANGE.contains physical).isSome then some 0
  else
  match BIOS_RANGE.contains physical with
  | some offset => some (bus.bios.read_u8 offset)
  | none =>
  if (MEMORY_CONTROL_3_RANGE.contains physical).isSome then some 0
  else none

/-- `Bus::write_u16`: alignment check, then two byte stores. -/
def write_u16 (bus : Bus) (address value : Nat) : Option Bus :=
  if address % 2 ≠ 0 then none
  else
    (bus.write_u8 address (value &&& 255)).bind fun bus =>
    bus.write_u8 (w32 (address + 1)) ((value >>> 8) &&& 255)

/-- `Bus::write_u32`: alignment check, then four byte stores. -/
def write_u32 (bus : Bus) (address value : Nat) : Option Bus :=
  if address % 4 ≠ 0 then none
  else
    (bus.write_u8 address (value &&& 255)).bind fun bus =>
    (bus.write_u8 (w32 (address + 1)) ((value >>> 8) &&& 255)).bind fun bus =>
    (bus.write_u8 (w32 (address + 2)) ((value >>> 16) &&& 255)).bind fun bus =>
    bus.write_u8 (w32 (address + 3)) ((value >>> 24) &&& 255)

/-- `Bus::read_u16`. -/
def read_u16 (bus : Bus) (address : Nat) : Option Nat :=
  if address % 2 ≠ 0 then none
  else
    (bus.read_u8 address).bind fun b0 =>
    (bus.read_u8 (w32 (address + 1))).map fun b1 =>
    (b1 <<< 8) ||| b0

/-- `Bus::read_u32`. -/
def read_u32 (bus : Bus) (address : Nat) : Option Nat :=
  if address % 4 ≠ 0 then none
  else
    (bus.read_u8 address).bind fun b0 =>
    (bus.read_u8 (w32 (address + 1))).bind fun b1 =>
    (bus.read_u8 (w32 (address + 2))).bind fun b2 =>
    (bus.read_u8 (w32 (address + 3))).map fun b3 =>
    (b3 <<< 24) ||| (b2 <<< 16) ||| (b1 <<< 8) ||| b0

end Bus

/-! ## cpu/instruction.rs -/

/-- An instruction wrapper: the 32-bit word and the PC it was fetched at. -/
structure Instruction where
  word : Nat
  pc : Nat

namespace Instruction

/-- The 6-bit operation code (31-26). -/
def op (i : Instruction) : Nat := (i.word >>> 26) &&& 63

/-- The 5-bit cop operation code (25-21). -/
def copOp (i : Instruction) : Nat := (i.word >>> 21) &&& 31

/-- The 5-bit source register specifier (25-21). -/
def rs (i : Instruction) : Nat := (i.word >>> 21) &&& 31

/-- The 5-bit branch operation code (20-16). -/
def branchOp (i : Instruction) : Nat := (i.word >>> 16) &&& 31

/-- The 5-bit target register specifier (20-16). -/
def rt (i : Instruction) : Nat := (i.word >>> 16) &&& 31

/-- The 16-bit immediate (15-0). -/
def imm (i : Instruction) : Nat := i.word &&& 65535

/-- The 26-bit jump target (25-0). -/
def target (i : Instruction) : Nat := i.word &&& 67108863

/-- The 5-bit cop destination register specifier (15-11). -/
def copRd (i : Instruction) : Nat := (i.word >>> 11) &&& 31

/-- The 5-bit destination register specifier (15-11). -/
def rd (i : Instruction) : Nat := (i.word >>> 11) &&& 31

/-- The 5-bit shift amount (10-6). -/
def shamt (i : Instruction) : Nat := (i.word >>> 6) &&& 31

/-- The 6-bit function field (5-0). -/
def funct (i : Instruction) : Nat := i.word &&& 63

end Instruction

/-! ## cpu/mod.rs: the CPU state -/

/-- The CPU component. -/
structure Cpu where
  /-- The 32 general purpose registers. -/
  registers : Nat → Nat
  /-- The 32 general purpose output (shadow) registers. -/
  outRegisters : Nat → Nat
  /-- The load delay register. -/
  loadDelayRegister : Option (Nat × Nat)
  hi : Nat
  lo : Nat
  /-- The 64 cop0 registers. -/
  cop0Registers : Nat → Nat
  pc : Nat
  /-- The branch delay program counter. -/
  branchDelayPc : Option Nat
  bus : Bus
  n : Nat

namespace Cpu

/-- `Cpu::new`. -/
def new (bus : Bus) : Cpu :=
  { registers := fun _ => 0, outRegisters := fun _ => 0,
    loadDelayRegister := none, hi := 0, lo := 0,
    cop0Registers := fun _ => 0, pc := 0xbfc00000,
    branchDelayPc := none, bus := bus, n := 0 }

/-- `Cpu::set_register`: writes land in the shadow file; register 0 absorbs
all writes. -/
def setRegister (c : Cpu) (register value : Nat) : Cpu :=
  if register ≠ 0 then
    { c with outRegisters := fun j => if j = register then value else c.outRegisters j }
  else c

/-- `Cpu::register`: reads come from the visible file. -/
def register (c : Cpu) (r : Nat) : Nat := c.registers r

/-- `Cpu::set_cop0_register`. -/
def setCop0Register (c : Cpu) (r value : Nat) : Cpu :=
  { c with cop0Registers := fun j => if j = r then value else c.cop0Registers j }

/-- `Cpu::cop0_register`. -/
def cop0Register (c : Cpu) (r : Nat) : Nat := c.cop0Registers r

/-- `Cpu::branch`: record the pending branch target. -/
def branch (c : Cpu) (offset : Nat) : Cpu :=
  { c with branchDelayPc := some (w32 (c.pc + offset)) }

end Cpu

/-! ## cpu/exception.rs -/

/-- Exception codes (`enum Exception`). -/
def excAdel : Nat := 0x04
def excAdes : Nat := 0x05
def excSyscall : Nat := 0x08
def excBp : Nat := 0x09
def excRi : Nat := 0x0a
def excCoprocessor : Nat := 0x0b
def excOv : Nat := 0x0c

/-- `Cpu::raise_exception`.  Note that the source computes the branch-delay
flag `bd` but then applies `cause |= 1 << 31` unconditionally. -/
def raiseException (c : Cpu) (i : Instruction) (exception : Nat) : Cpu :=
  let cause := c.cop0Register 13
  -- `let bd = instruction.1 != (self.pc - 4);` (u32 wrapping subtraction)
  let bd := i.pc ≠ w32 (c.pc + 4294967292)
  -- `cause |= 1 << 31;` — applied regardless of `bd`
  let cause := cause ||| 2147483648
  -- `let pc = instruction.1 - if bd { 4 } else { 0 };`
  let pcv := if bd then w32 (i.pc + 4294967292) else i.pc
  let c := c.setCop0Register 14 pcv
  let cause := cause ||| (exception <<< 2)
  let c := c.setCop0Register 13 cause
  let sr := c.cop0Register 12
  let bev := sr &&& 4194304 ≠ 0
  let mode := sr &&& 63
  let sr := (sr &&& 0xffffffc0) ||| ((mode <<< 2) &&& 63)
  let c := c.setCop0Register 12 sr
  let handler : Nat := if bev then 0xbfc00180 else 0x80000080
  { c with pc := handler }

/-! ## cpu/special.rs -/

namespace Cpu

/-- Opcode SLL. -/
def opSll (c : Cpu) (i : Instruction) : Cpu :=
  c.setRegister i.rd (w32 (c.register i.rt <<< i.shamt))

/-- Opcode SRL. -/
def opSrl (c : Cpu) (i : Instruction) : Cpu :=
  c.setRegister i.rd (c.register i.rt >>> i.shamt)

/-- Opcode SRA. -/
def opSra (c : Cpu) (i : Instruction) : Cpu :=
  c.setRegister i.rd (sra32 (c.register i.rt) i.shamt)

/-- Opcode SLLV. -/
def opSllv (c : Cpu) (i : Instruction) : Cpu :=
  c.setRegister i.rd (w32 (c.register i.rt <<< (c.register i.rs &&& 31)))

/-- Opcode SRLV. -/
def opSrlv (c : Cpu) (i : Instruction) : Cpu :=
  c.setRegister i.rd (c.register i.rt >>> (c.register i.rs &&& 31))

/-- Opcode SRAV. -/
def opSrav (c : Cpu) (i : Instruction) : Cpu :=
  c.setRegister i.rd (sra32 (c.register i.rt) (c.register i.rs &&& 31))

/-- Opcode JR. -/
def opJr (c : Cpu) (i : Instruction) : Cpu :=
  { c with branchDelayPc := some (c.register i.rs) }

/-- Opcode JALR: the link value is `self.pc`, which at execution time is
already the address of the delay slot. -/
def opJalr (c : Cpu) (i : Instruction) : Cpu :=
  let c' := c.setRegister i.rd c.pc
  { c' with branchDelayPc := some (c.register i.rs) }

/-- Opcode SYSCALL. -/
def opSyscall (c : Cpu) (i : Instruction) : Cpu := raiseException c i excSyscall

/-- Opcode BREAK. -/
def opBreak (c : Cpu) (i : Instruction) : Cpu := raiseException c i excBp

/-- Opcode MFHI. -/
def opMfhi (c : Cpu) (i : Instruction) : Cpu := c.setRegister i.rd c.hi

/-- Opcode MTHI. -/
def opMthi (c : Cpu) (i : Instruction) : Cpu := { c with hi := c.register i.rs }

/-- Opcode MFLO. -/
def opMflo (c : Cpu) (i : Instruction) : Cpu := c.setRegister i.rd c.lo

/-- Opcode MTLO. -/
def opMtlo (c : Cpu) (i : Instruction) : Cpu := { c with lo := c.register i.rs }

/-- Opcode MULT. -/
def opMult (c : Cpu) (i : Instruction) : Cpu :=
  let p := ofI64 (toI32 (c.register i.rs) * toI32 (c.register i.rt))
  { c with hi := p >>> 32, lo := w32 p }

/-- Opcode MULTU. -/
def opMultu (c : Cpu) (i : Instruction) : Cpu :=
  let p := c.register i.rs * c.register i.rt
  { c with hi := p >>> 32, lo := w32 p }

/-- Opcode DIV: signed division with the divide-by-zero and
`0x80000000 / -1` fixups.  Rust `i32` `/` truncates toward zero and `%` is
the corresponding remainder, i.e. `Int.tdiv`/`Int.tmod`. -/
def opDiv (c : Cpu) (i : Instruction) : Cpu :=
  let s := toI32 (c.register i.rs)
  let t := toI32 (c.register i.rt)
  if t = 0 then
    { c with hi := c.register i.rs, lo := if 0 ≤ s then 4294967295 else 1 }
  else if c.register i.rs = 2147483648 ∧ t = -1 then
    { c with hi := 0, lo := 2147483648 }
  else
    { c with hi := ofI32 (Int.tmod s t), lo := ofI32 (Int.tdiv s t) }

/-- Opcode DIVU. -/
def opDivu (c : Cpu) (i : Instruction) : Cpu :=
  let s := c.register i.rs
  let t := c.register i.rt
  if t = 0 then { c with hi := s, lo := 4294967295 }
  else { c with hi := s % t, lo := s / t }

/-- Opcode ADD: traps on signed overflow (`checked_add`). -/
def opAdd (c : Cpu) (i : Instruction) : Cpu :=
  let s := toI32 (c.register i.rs)
  let t := toI32 (c.register i.rt)
  if s + t < -2147483648 ∨ 2147483647 < s + t then raiseException c i excOv
  else c.setRegister i.rd (ofI32 (s + t))

/-- Opcode ADDU. -/
def opAddu (c : Cpu) (i : Instruction) : Cpu :=
  c.setRegister i.rd (w32 (c.register i.rs + c.register i.rt))

/-- Opcode SUB: traps on signed overflow (`checked_sub`). -/
def opSub (c : Cpu) (i : Instruction) : Cpu :=
  let s := toI32 (c.register i.rs)
  let t := toI32 (c.register i.rt)
  if s - t < -2147483648 ∨ 2147483647 < s - t then raiseException c i excOv
  else c.setRegister i.rd (ofI32 (s - t))

/-- Opcode SUBU (`wrapping_sub`). -/
def opSubu (c : Cpu) (i : Instruction) : Cpu :=
  c.setRegister i.rd
    (w32 (c.register i.rs + (4294967296 - c.register i.rt % 4294967296)))

/-- Opcode AND. -/
def opAnd (c : Cpu) (i : Instruction) : Cpu :=
  c.setRegister i.rd (c.register i.rs &&& c.register i.rt)

/-- Opcode OR. -/
def opOr (c : Cpu) (i : Instruction) : Cpu :=
  c.setRegister i.rd (c.register i.rs ||| c.register i.rt)

/-- Opcode XOR. -/
def opXor (c : Cpu) (i : Instruction) : Cpu :=
  c.setRegister i.rd (c.register i.rs ^^^ c.register i.rt)

/-- Opcode NOR (`!(s | t)` on `u32`). -/
def opNor (c : Cpu) (i : Instruction) : Cpu :=
  c.setRegister i.rd (4294967295 ^^^ ((c.register i.rs ||| c.register i.rt) &&& 4294967295))

/-- Opcode SLT. -/
def opSlt (c : Cpu) (i : Instruction) : Cpu :=
  c.setRegister i.rd
    (if toI32 (c.register i.rs) < toI32 (c.register i.rt) then 1 else 0)

/-- Opcode SLTU. -/
def opSltu (c : Cpu) (i : Instruction) : Cpu :=
  c.setRegister i.rd (if c.register i.rs < c.register i.rt then 1 else 0)

/-! ## cpu/branch.rs -/

/-- Opcode BLTZ. -/
def opBltz (c : Cpu) (i : Instruction) : Cpu :=
  let addressOffset := w32 (signExtend16 i.imm <<< 2)
  if toI32 (c.register i.rs) < 0 then c.branch addressOffset else c

/-- Opcode BGEZ. -/
def opBgez (c : Cpu) (i : Instruction) : Cpu :=
  let addressOffset := w32 (signExtend16 i.imm <<< 2)
  if 0 ≤ toI32 (c.register i.rs) then c.branch addressOffset else c

/-- Opcode BLTZAL: always links `self.pc + 4` into register 31. -/
def opBltzal (c : Cpu) (i : Instruction) : Cpu :=
  let addressOffset := w32 (signExtend16 i.imm <<< 2)
  let c' := c.setRegister 31 (w32 (c.pc + 4))
  if toI32 (c.register i.rs) < 0 then c'.branch addressOffset else c'

/-- Opcode BGEZAL: always links `self.pc + 4` into register 31. -/
def opBgezal (c : Cpu) (i : Instruction) : Cpu :=
  let addressOffset := w32 (signExtend16 i.imm <<< 2)
  let c' := c.setRegister 31 (w32 (c.pc + 4))
  if 0 ≤ toI32 (c.register i.rs) then c'.branch addressOffset else c'

/-! ## cpu/instructions.rs -/

/-- Opcode J. -/
def opJ (c : Cpu) (i : Instruction) : Cpu :=
  { c with branchDelayPc := some ((i.target <<< 2) ||| (c.pc &&& 0xf0000000)) }

/-- Opcode JAL: links `self.pc + 4` into register 31. -/
def opJal (c : Cpu) (i : Instruction) : Cpu :=
  let c' := c.setRegister 31 (w32 (c.pc + 4))
  { c' with branchDelayPc := some ((i.target <<< 2) ||| (c.pc &&& 0xf0000000)) }

/-- Opcode BEQ. -/
def opBeq (c : Cpu) (i : Instruction) : Cpu :=
  let addressOffset := w32 (signExtend16 i.imm <<< 2)
  if c.register i.rs = c.register i.rt then c.branch addressOffset else c

/-- Opcode BNE. -/
def opBne (c : Cpu) (i : Instruction) : Cpu :=
  let addressOffset := w32 (signExtend16 i.imm <<< 2)
  if c.register i.rs ≠ c.register i.rt then c.branch addressOffset else c

/-- Opcode BLEZ. -/
def opBlez (c : Cpu) (i : Instruction) : Cpu :=
  let addressOffset := w32 (signExtend16 i.imm <<< 2)
  if toI32 (c.register i.rs) ≤ 0 then c.branch addressOffset else c

/-- Opcode BGTZ. -/
def opBgtz (c : Cpu) (i : Instruction) : Cpu :=
  let addressOffset := w32 (signExtend16 i.imm <<< 2)
  if 0 < toI32 (c.register i.rs) then c.branch addressOffset else c

/-- Opcode ADDI: traps on signed overflow. -/
def opAddi (c : Cpu) (i : Instruction) : Cpu :=
  let s := toI32 (c.register i.rs)
  let v := toI32 (signExtend16 i.imm)
  if s + v < -2147483648 ∨ 2147483647 < s + v then raiseException c i excOv
  else c.setRegister i.rt (ofI32 (s + v))

/-- Opcode ADDIU. -/
def opAddiu (c : Cpu) (i : Instruction) : Cpu :=
  c.setRegister i.rt (w32 (c.register i.rs + signExtend16 i.imm))

/-- Opcode SLTI. -/
def opSlti (c : Cpu) (i : Instruction) : Cpu :=
  c.setRegister i.rt
    (if toI32 (c.register i.rs) < toI32 (signExtend16 i.imm) then 1 else 0)

/-- Opcode SLTIU. -/
def opSltiu (c : Cpu) (i : Instruction) : Cpu :=
  c.setRegister i.rt (if c.register i.rs < signExtend16 i.imm then 1 else 0)

/-- Opcode ANDI. -/
def opAndi (c : Cpu) (i : Instruction) : Cpu :=
  c.setRegister i.rt (c.register i.rs &&& zeroExtend16 i.imm)

/-- Opcode ORI. -/
def opOri (c : Cpu) (i : Instruction) : Cpu :=
  c.setRegister i.rt (c.register i.rs ||| zeroExtend16 i.imm)

/-- Opcode XORI. -/
def opXori (c : Cpu) (i : Instruction) : Cpu :=
  c.setRegister i.rt (c.register i.rs ^^^ zeroExtend16 i.imm)

/-- Opcode LUI. -/
def opLui (c : Cpu) (i : Instruction) : Cpu :=
  c.setRegister i.rt (zeroExtend16 i.imm <<< 16)

/-! ## cpu/cop0.rs -/

/-- Opcode MFC0. -/
def opMfc0 (c : Cpu) (i : Instruction) : Cpu :=
  c.setRegister i.rt (c.cop0Register i.copRd)

/-- Opcode MTC0. -/
def opMtc0 (c : Cpu) (i : Instruction) : Cpu :=
  c.setCop0Register i.copRd (c.register i.rt)

/-- Opcode RFE: shift the low-6 mode field of SR right by two. -/
def opRfe (c : Cpu) (_i : Instruction) : Cpu :=
  let sr := c.cop0Register 12
  let mode := sr &&& 63
  c.setCop0Register 12 ((sr &&& 0xffffffc0) ||| (mode >>> 2))

/-- The effective address of a load/store:
`self.register(base).wrapping_add(offset.sign_extend())`. -/
def effAddress (c : Cpu) (i : Instruction) : Nat :=
  w32 (c.register i.rs + signExtend16 i.imm)

/-- Whether the cache is isolated: `cop0[12] & 0x10000 != 0`. -/
def cacheIsolated (c : Cpu) : Prop := c.cop0Register 12 &&& 65536 ≠ 0

instance (c : Cpu) : Decidable c.cacheIsolated := by
  unfold cacheIsolated; infer_instance

/-- Opcode LB.  The source computes
`self.bus.read_u8(address).sign_extend() as u32`, i.e. an 8→16-bit sign
extension followed by a 16→32-bit zero extension. -/
def opLb (c : Cpu) (i : Instruction) : Option Cpu :=
  if c.cacheIsolated then some c
  else
    (c.bus.read_u8 (c.effAddress i)).map fun b =>
      { c with loadDelayRegister := some (i.rt, signExtend8 b) }

/-- Opcode LWL: merges the freshly read aligned word with the destination's
value in the shadow file; no cache-isolation check in the source. -/
def opLwl (c : Cpu) (i : Instruction) : Option Cpu :=
  let address := c.effAddress i
  let value := c.outRegisters i.rt
  let aligned := address &&& 0xfffffffc
  (c.bus.read_u32 aligned).map fun word =>
    let result :=
      match address &&& 3 with
      | 0 => (value &&& 0x00ffffff) ||| w32 (word <<< 24)
      | 1 => (value &&& 0x0000ffff) ||| w32 (word <<< 16)
      | 2 => (value &&& 0x000000ff) ||| w32 (word <<< 8)
      | _ => word
    { c with loadDelayRegister := some (i.rt, result) }

/-- Opcode LH. -/
def opLh (c : Cpu) (i : Instruction) : Option Cpu :=
  if c.cacheIsolated then some c
  else if c.effAddress i % 2 ≠ 0 then some (raiseException c i excAdel)
  else
    (c.bus.read_u16 (c.effAddress i)).map fun h =>
      { c with loadDelayRegister := some (i.rt, signExtend16 h) }

/-- Opcode LW. -/
def opLw (c : Cpu) (i : Instruction) : Option Cpu :=
  if c.cacheIsolated then some c
  else if c.effAddress i % 4 ≠ 0 then some (raiseException c i excAdel)
  else
    (c.bus.read_u32 (c.effAddress i)).map fun word =>
      { c with loadDelayRegister := some (i.rt, word) }

/-- Opcode LBU. -/
def opLbu (c : Cpu) (i : Instruction) : Option Cpu :=
  if c.cacheIsolated then some c
  else
    (c.bus.read_u8 (c.effAddress i)).map fun b =>
      { c with loadDelayRegister := some (i.rt, b) }

/-- Opcode LHU. -/
def opLhu (c : Cpu) (i : Instruction) : Option Cpu :=
  if c.cacheIsolated then some c
  else if c.effAddress i % 2 ≠ 0 then some (raiseException c i excAdel)
  else
    (c.bus.read_u16 (c.effAddress i)).map fun h =>
      { c with loadDelayRegister := some (i.rt, h) }

/-- Opcode LWR: no cache-isolation check in the source. -/
def opLwr (c : Cpu) (i : Instruction) : Option Cpu :=
  let address := c.effAddress i
  let value := c.outRegisters i.rt
  let aligned := address &&& 0xfffffffc
  (c.bus.read_u32 aligned).map fun word =>
    let result :=
      match address &&& 3 with
      | 0 => word
      | 1 => (value &&& 0xff000000) ||| (word >>> 8)
      | 2 => (value &&& 0xffff0000) ||| (word >>> 16)
      | _ => (value &&& 0xffffff00) ||| (word >>> 24)
    { c with loadDelayRegister := some (i.rt, result) }

/-- Opcode SB. -/
def opSb (c : Cpu) (i : Instruction) : Option Cpu :=
  if c.cacheIsolated then some c
  else
    (c.bus.write_u8 (c.effAddress i) (c.register i.rt &&& 255)).map fun bus =>
      { c with bus := bus }

/-- Opcode SH. -/
def opSh (c : Cpu) (i : Instruction) : Option Cpu :=
  if c.cacheIsolated then some c
  else if c.effAddress i % 2 ≠ 0 then some (raiseException c i excAdes)
  else
    (c.bus.write_u16 (c.effAddress i) (c.register i.rt &&& 65535)).map fun bus =>
      { c with bus := bus }

/-- Opcode SWL: read-merge-write on the aligned word; note the source has
no cache-isolation check here. -/
def opSwl (c : Cpu) (i : Instruction) : Option Cpu :=
  let t := c.register i.rt
  let address := c.effAddress i
  let aligned := address &&& 0xfffffffc
  (c.bus.read_u32 aligned).bind fun value =>
    let result :=
      match address &&& 3 with
      | 0 => (value &&& 0xffffff00) ||| (t >>> 24)
      | 1 => (value &&& 0xffff0000) ||| (t >>> 16)
      | 2 => (value &&& 0xff000000) ||| (t >>> 8)
      | _ => value ||| t
    (c.bus.write_u32 aligned result).map fun bus => { c with bus := bus }

/-- Opcode SW. -/
def opSw (c : Cpu) (i : Instruction) : Option Cpu :=
  if c.cacheIsolated then some c
  else if c.effAddress i % 4 ≠ 0 then some (raiseException c i excAdes)
  else
    (c.bus.write_u32 (c.effAddress i) (c.register i.rt)).map fun bus =>
      { c with bus := bus }

/-- Modelled from the spec: opcode SWR is dispatched by `Cpu::execute`
(`0b101110 => self.op_swr(..)`) but its definition is not among the source
files; per the spec, stores respect the cache-isolated shortcut, SWR has no
alignment exception, and the byte merge is the MIPS R3000 store-word-right
formula on the aligned word. -/
def opSwr (c : Cpu) (i : Instruction) : Option Cpu :=
  if c.cacheIsolated then some c
  else
    let t := c.register i.rt
    let address := c.effAddress i
    let aligned := address &&& 0xfffffffc
    (c.bus.read_u32 aligned).bind fun value =>
      let result :=
        match address &&& 3 with
        | 0 => t
        | 1 => (value &&& 0x000000ff) ||| w32 (t <<< 8)
        | 2 => (value &&& 0x0000ffff) ||| w32 (t <<< 16)
        | _ => (value &&& 0x00ffffff) ||| w32 (t <<< 24)
      (c.bus.write_u32 aligned result).map fun bus => { c with bus := bus }

/-! ## cpu/cop2.rs: both opcodes end in `todo!()` -/

/-- Opcode LWC2: `todo!()`. -/
def opLwc2 (_c : Cpu) (_i : Instruction) : Option Cpu := none

/-- Opcode SWC2: `todo!()`. -/
def opSwc2 (_c : Cpu) (_i : Instruction) : Option Cpu := none

end Cpu

/-! ## cpu/mod.rs: execute and step -/

namespace Cpu

/-- `Cpu::execute`: the two-level opcode dispatch.  `none` models the
`unimplemented!`/`unreachable!`/`todo!` aborts. -/
def execute (c : Cpu) (i : Instruction) : Option Cpu :=
  match i.op with
  | 0 =>
    match i.funct with
    | 0 => some (c.opSll i)
    | 2 => some (c.opSrl i)
    | 3 => some (c.opSra i)
    | 4 => some (c.opSllv i)
    | 6 => some (c.opSrlv i)
    | 7 => some (c.opSrav i)
    | 8 => some (c.opJr i)
    | 9 => some (c.opJalr i)
    | 12 => some (c.opSyscall i)
    | 13 => some (c.opBreak i)
    | 16 => some (c.opMfhi i)
    | 17 => some (c.opMthi i)
    | 18 => some (c.opMflo i)
    | 19 => some (c.opMtlo i)
    | 24 => some (c.opMult i)
    | 25 => some (c.opMultu i)
    | 26 => some (c.opDiv i)
    | 27 => some (c.opDivu i)
    | 32 => some (c.opAdd i)
    | 33 => some (c.opAddu i)
    | 34 => some (c.opSub i)
    | 35 => some (c.opSubu i)
    | 36 => some (c.opAnd i)
    | 37 => some (c.opOr i)
    | 38 => some (c.opXor i)
    | 39 => some (c.opNor i)
    | 42 => some (c.opSlt i)
    | 43 => some (c.opSltu i)
    | _ => none
  | 1 =>
    match i.branchOp with
    | 0 => some (c.opBltz i)
    | 1 => some (c.opBgez i)
    | 16 => some (c.opBltzal i)
    | 17 => some (c.opBgezal i)
    | _ => none
  | 2 => some (c.opJ i)
  | 3 => some (c.opJal i)
  | 4 => some (c.opBeq i)
  | 5 => some (c.opBne i)
  | 6 => some (c.opBlez i)
  | 7 => some (c.opBgtz i)
  | 8 => some (c.opAddi i)
  | 9 => some (c.opAddiu i)
  | 10 => some (c.opSlti i)
  | 11 => some (c.opSltiu i)
  | 12 => some (c.opAndi i)
  | 13 => some (c.opOri i)
  | 14 => some (c.opXori i)
  | 15 => some (c.opLui i)
  | 16 =>
    match i.copOp with
    | 0 => some (c.opMfc0 i)
    | 4 => some (c.opMtc0 i)
    | 16 =>
      match i.funct with
      | 16 => some (c.opRfe i)
      | _ => none
    | _ => none
  | 17 => some (raiseException c i excCoprocessor)
  | 18 => none
  | 19 => some (raiseException c i excCoprocessor)
  | 32 => c.opLb i
  | 33 => c.opLh i
  | 34 => c.opLwl i
  | 35 => c.opLw i
  | 36 => c.opLbu i
  | 37 => c.opLhu i
  | 38 => c.opLwr i
  | 40 => c.opSb i
  | 41 => c.opSh i
  | 42 => c.opSwl i
  | 43 => c.opSw i
  | 46 => c.opSwr i
  | 48 => some (raiseException c i excCoprocessor)
  | 49 => some (raiseException c i excCoprocessor)
  | 50 => c.opLwc2 i
  | 51 => some (raiseException c i excCoprocessor)
  | 56 => some (raiseException c i excCoprocessor)
  | 57 => some (raiseException c i excCoprocessor)
  | 58 => c.opSwc2 i
  | 59 => some (raiseException c i excCoprocessor)
  | _ => some (raiseException c i excRi)

/-- The front half of `Cpu::step` after the fetch: advance the PC and the
instruction counter, then consume a pending branch target. -/
def afterFetchAdvance (c : Cpu) : Cpu :=
  let c := { c with pc := w32 (c.pc + 4), n := c.n + 1 }
  match c.branchDelayPc with
  | some branchPc => { c with pc := branchPc, branchDelayPc := none }
  | none => c

/-- The pending-load promotion of `Cpu::step`: apply a pending load to the
shadow register file through `set_register`, then clear it. -/
def applyLoadDelay (c : Cpu) : Cpu :=
  match c.loadDelayRegister with
  | some rv => setRegister { c with loadDelayRegister := none } rv.1 rv.2
  | none => c

/-- `Cpu::step`: the unaligned-PC `panic!` and the fetch, then the
pipeline stages, then `self.registers = self.out_registers`. -/
def step (c : Cpu) : Option Cpu :=
  if c.pc % 4 ≠ 0 then none
  else
    match c.bus.read_u32 c.pc with
    | none => none
    | some w =>
      let i : Instruction := ⟨w, c.pc⟩
      let m := applyLoadDelay (afterFetchAdvance c)
      match m.execute i with
      | none => none
      | some e => some { e with registers := e.outRegisters }

end Cpu

/-! ## gpu/gp1.rs: GP1(04h) DMA direction -/

/-- The GPU DMA direction. -/
inductive DmaDirection where
  | Off
  | Fifo
  | CpuToGpu
  | GpuToCpu
deriving DecidableEq, Repr

/-- `Gpu::op_dma_direction`: the source masks the command with `0x1`
(`let dma_direction = (command & 0x1) as u8;`) before matching, so only
the `Off` and `Fifo` arms are reachable.  `none` models the
`unreachable!` arm. -/
def opDmaDirection (command : Nat) : Option DmaDirection :=
  match command &&& 1 with
  | 0 => some .Off
  | 1 => some .Fifo
  | 2 => some .CpuToGpu
  | 3 => some .GpuToCpu
  | _ => none

/-- The opcode of a GP1 command: `let opcode = (command >> 24) as u8;`. -/
def gp1Opcode (command : Nat) : Nat := (command >>> 24) &&& 255

/-! ## Derived notions and concrete states used by the theorems below -/

/-- The register-file frame property: a state transition that left the
shadow slot of register 0 and the whole visible file untouched. -/
def Frames (c e : Cpu) : Prop :=
  e.outRegisters 0 = c.outRegisters 0 ∧ e.registers = c.registers

/-- A bus with an all-zero BIOS image, fresh RAM and a fresh DMA block. -/
def bus0 : Bus := { bios := ⟨fun _ => 0⟩, ram := Ram.new, dma := Dma.new }

/-- Channel 6 configured as in the OTC end-to-end scenario: base
0x0010_0000, block size 4, to-RAM, step −4, immediate sync, busy,
manual trigger. -/
def otcChannel : Channel :=
  { Channel.new .Otc with
    baseAddress := 0x100000, blockSize := 4,
    transferDirection := .ToRam, memoryAddressStep := .Backward,
    syncMode := .Immediately, busy := .Busy, trigger := .ManualStart }

/-- The RAM effect of the configured OTC transfer, unrolled into its
sixteen byte stores: the loop writes `last_address` (initially the base
address itself) at `address` and steps the address down by 4, writing the
end marker 0x00FFFFFF on the final iteration. -/
def otcResultRam (ram : Ram) : Ram :=
  ram.write_u8 0x100000 0x00 |>.write_u8 0x100001 0x00 |>.write_u8 0x100002 0x10
    |>.write_u8 0x100003 0x00
    |>.write_u8 0xFFFFC 0x00 |>.write_u8 0xFFFFD 0x00 |>.write_u8 0xFFFFE 0x10
    |>.write_u8 0xFFFFF 0x00
    |>.write_u8 0xFFFF8 0xFC |>.write_u8 0xFFFF9 0xFF |>.write_u8 0xFFFFA 0x0F
    |>.write_u8 0xFFFFB 0x00
    |>.write_u8 0xFFFF4 0xFF |>.write_u8 0xFFFF5 0xFF |>.write_u8 0xFFFF6 0xFF
    |>.write_u8 0xFFFF7 0x00

/-- A CPU state with the cache isolated (SR bit 16 set) and register 1
holding 0xAABBCCDD. -/
def isolatedCpu : Cpu :=
  { Cpu.new bus0 with
    cop0Registers := fun j => if j = 12 then 65536 else 0,
    registers := fun j => if j = 1 then 0xAABBCCDD else 0 }

/-- `SWL $1, 0($0)`: op 0b101010, rs 0, rt 1, imm 0. -/
def swlInstr : Instruction := ⟨(42 <<< 26) ||| (1 <<< 16), 0xbfc00000⟩

/-- `SW $1, 1($0)`: op 0b101011, rs 0, rt 1, imm 1 — an unaligned store. -/
def swUnalignedInstr : Instruction := ⟨(43 <<< 26) ||| (1 <<< 16) ||| 1, 0xbfc00000⟩

/-- A CPU state carrying a pending load of 0x42 into register 1. -/
def pendingLoadCpu : Cpu :=
  { Cpu.new bus0 with loadDelayRegister := some (1, 0x42) }

/-- The word encoding `JALR $31, $2` (op 0, rs 2, rd 31, funct 9). -/
def jalrWord : Nat := (2 <<< 21) ||| (31 <<< 11) ||| 9

/-- The word encoding `JAL 0` (op 3, target 0). -/
def jalWord : Nat := 3 <<< 26

/-- The word encoding `BLTZAL $2, 0` (op 1, rs 2, branch-op 16). -/
def bltzalWord : Nat := (1 <<< 26) ||| (2 <<< 21) ||| (16 <<< 16)

/-- A BIOS image whose first word is `w` and whose other bytes are zero. -/
def biosWithWord (w : Nat) : Bios :=
  ⟨fun a => if a < 4 then (w >>> (8 * a)) &&& 255 else 0⟩

/-- A CPU booted on a BIOS whose first instruction is `w`. -/
def cpuOnWord (w : Nat) : Cpu :=
  Cpu.new { bus0 with bios := biosWithWord w }

/-- A CPU state for exercising DIV: register 1 holds 7 and register 2
holds the `u32` pattern of −3. -/
def divCpu : Cpu :=
  { Cpu.new bus0 with
    registers := fun j => if j = 1 then 7 else if j = 2 then 4294967293 else 0 }

/-- `DIV $1, $2`: op 0, rs 1, rt 2, funct 0b011010. -/
def divInstr : Instruction := ⟨(1 <<< 21) ||| (2 <<< 16) ||| 26, 0xbfc00000⟩

/-! ## Helper lemmas about the register file discipline -/

namespace Cpu

theorem setRegister_registers (c : Cpu) (r v : Nat) :
    (c.setRegister r v).registers = c.registers := by
  unfold setRegister; split <;> rfl

theorem setRegister_out0 (c : Cpu) (r v : Nat) :
    (c.setRegister r v).outRegisters 0 = c.outRegisters 0 := by
  unfold setRegister
  by_cases h : r = 0
  · simp [h]
  · simp [h, Ne.symm h]

theorem setRegister_out_self (c : Cpu) (r v : Nat) (h : r ≠ 0) :
    (c.setRegister r v).outRegisters r = v := by
  simp [setRegister, h]

theorem setRegister_out_ne (c : Cpu) (r v j : Nat) (h : j ≠ r) :
    (c.setRegister r v).outRegisters j = c.outRegisters j := by
  unfold setRegister
  split
  · simp [h]
  · rfl

theorem setRegister_pc (c : Cpu) (r v : Nat) :
    (c.setRegister r v).pc = c.pc := by
  unfold setRegister; split <;> rfl

theorem setRegister_bus (c : Cpu) (r v : Nat) :
    (c.setRegister r v).bus = c.bus := by
  unfold setRegister; split <;> rfl

theorem setRegister_branchDelayPc (c : Cpu) (r v : Nat) :
    (c.setRegister r v).branchDelayPc = c.branchDelayPc := by
  unfold setRegister; split <;> rfl

theorem setRegister_loadDelayRegister (c : Cpu) (r v : Nat) :
    (c.setRegister r v).loadDelayRegister = c.loadDelayRegister := by
  unfold setRegister; split <;> rfl

end Cpu

theorem raiseException_registers (c : Cpu) (i : Instruction) (x : Nat) :
    (raiseException c i x).registers = c.registers := rfl

theorem raiseException_outRegisters (c : Cpu) (i : Instruction) (x : Nat) :
    (raiseException c i x).outRegisters = c.outRegisters := rfl

theorem raiseException_bus (c : Cpu) (i : Instruction) (x : Nat) :
    (raiseException c i x).bus = c.bus := rfl

namespace Cpu

theorem frames_setRegister (c : Cpu) (r v : Nat) : Frames c (c.setRegister r v) :=
  ⟨setRegister_out0 c r v, setRegister_registers c r v⟩

theorem frames_raiseException (c : Cpu) (i : Instruction) (x : Nat) :
    Frames c (raiseException c i x) := ⟨rfl, rfl⟩

theorem frames_opSll (c : Cpu) (i : Instruction) : Frames c (c.opSll i) := by
  refine ⟨?_, ?_⟩ <;> simp [opSll, setRegister_out0, setRegister_registers]

theorem frames_opSrl (c : Cpu) (i : Instruction) : Frames c (c.opSrl i) := by
  refine ⟨?_, ?_⟩ <;> simp [opSrl, setRegister_out0, setRegister_registers]

theorem frames_opSra (c : Cpu) (i : Instruction) : Frames c (c.opSra i) := by
  refine ⟨?_, ?_⟩ <;> simp [opSra, setRegister_out0, setRegister_registers]

theorem frames_opSllv (c : Cpu) (i : Instruction) : Frames c (c.opSllv i) := by
  refine ⟨?_, ?_⟩ <;> simp [opSllv, setRegister_out0, setRegister_registers]

theorem frames_opSrlv (c : Cpu) (i : Instruction) : Frames c (c.opSrlv i) := by
  refine ⟨?_, ?_⟩ <;> simp [opSrlv, setRegister_out0, setRegister_registers]

theorem frames_opSrav (c : Cpu) (i : Instruction) : Frames c (c.opSrav i) := by
  refine ⟨?_, ?_⟩ <;> simp [opSrav, setRegister_out0, setRegister_registers]

theorem frames_opJr (c : Cpu) (i : Instruction) : Frames c (c.opJr i) := ⟨rfl, rfl⟩

theorem frames_opJalr (c : Cpu) (i : Instruction) : Frames c (c.opJalr i) := by
  simp only [opJalr]
  refine ⟨?_, ?_⟩ <;> simp [setRegister_out0, setRegister_registers]

theorem frames_opSyscall (c : Cpu) (i : Instruction) : Frames c (c.opSyscall i) :=
  ⟨rfl, rfl⟩

theorem frames_opBreak (c : Cpu) (i : Instruction) : Frames c (c.opBreak i) :=
  ⟨rfl, rfl⟩

theorem frames_opMfhi (c : Cpu) (i : Instruction) : Frames c (c.opMfhi i) := by
  refine ⟨?_, ?_⟩ <;> simp [opMfhi, setRegister_out0, setRegister_registers]

theorem frames_opMthi (c : Cpu) (i : Instruction) : Frames c (c.opMthi i) := ⟨rfl, rfl⟩

theorem frames_opMflo (c : Cpu) (i : Instruction) : Frames c (c.opMflo i) := by
  refine ⟨?_, ?_⟩ <;> simp [opMflo, setRegister_out0, setRegister_registers]

theorem frames_opMtlo (c : Cpu) (i : Instruction) : Frames c (c.opMtlo i) := ⟨rfl, rfl⟩

theorem frames_opMult (c : Cpu) (i : Instruction) : Frames c (c.opMult i) := ⟨rfl, rfl⟩

theorem frames_opMultu (c : Cpu) (i : Instruction) : Frames c (c.opMultu i) :=
  ⟨rfl, rfl⟩

theorem frames_opDiv (c : Cpu) (i : Instruction) : Frames c (c.opDiv i) := by
  simp only [opDiv]
  split
  · exact ⟨rfl, rfl⟩
  · split <;> exact ⟨rfl, rfl⟩

theorem frames_opDivu (c : Cpu) (i : Instruction) : Frames c (c.opDivu i) := by
  simp only [opDivu]
  split <;> exact ⟨rfl, rfl⟩

theorem frames_opAdd (c : Cpu) (i : Instruction) : Frames c (c.opAdd i) := by
  simp only [opAdd]
  split
  · exact frames_raiseException ..
  · refine ⟨?_, ?_⟩ <;> simp [setRegister_out0, setRegister_registers]

theorem frames_opAddu (c : Cpu) (i : Instruction) : Frames c (c.opAddu i) := by
  refine ⟨?_, ?_⟩ <;> simp [opAddu, setRegister_out0, setRegister_registers]

theorem frames_opSub (c : Cpu) (i : Instruction) : Frames c (c.opSub i) := by
  simp only [opSub]
  split
  · exact frames_raiseException ..
  · refine ⟨?_, ?_⟩ <;> simp [setRegister_out0, setRegister_registers]

theorem frames_opSubu (c : Cpu) (i : Instruction) : Frames c (c.opSubu i) := by
  refine ⟨?_, ?_⟩ <;> simp [opSubu, setRegister_out0, setRegister_registers]

theorem frames_opAnd (c : Cpu) (i : Instruction) : Frames c (c.opAnd i) := by
  refine ⟨?_, ?_⟩ <;> simp [opAnd, setRegister_out0, setRegister_registers]

theorem frames_opOr (c : Cpu) (i : Instruction) : Frames c (c.opOr i) := by
  refine ⟨?_, ?_⟩ <;> simp [opOr, setRegister_out0, setRegister_registers]

theorem frames_opXor (c : Cpu) (i : Instruction) : Frames c (c.opXor i) := by
  refine ⟨?_, ?_⟩ <;> simp [opXor, setRegister_out0, setRegister_registers]

theorem frames_opNor (c : Cpu) (i : Instruction) : Frames c (c.opNor i) := by
  refine ⟨?_, ?_⟩ <;> simp [opNor, setRegister_out0, setRegister_registers]

theorem frames_opSlt (c : Cpu) (i : Instruction) : Frames c (c.opSlt i) := by
  refine ⟨?_, ?_⟩ <;> simp [opSlt, setRegister_out0, setRegister_registers]

theorem frames_opSltu (c : Cpu) (i : Instruction) : Frames c (c.opSltu i) := by
  refine ⟨?_, ?_⟩ <;> simp [opSltu, setRegister_out0, setRegister_registers]

theorem frames_opBltz (c : Cpu) (i : Instruction) : Frames c (c.opBltz i) := by
  simp only [opBltz, Cpu.branch]
  split <;> exact ⟨rfl, rfl⟩

theorem frames_opBgez (c : Cpu) (i : Instruction) : Frames c (c.opBgez i) := by
  simp only [opBgez, Cpu.branch]
  split <;> exact ⟨rfl, rfl⟩

theorem frames_opBltzal (c : Cpu) (i : Instruction) : Frames c (c.opBltzal i) := by
  simp only [opBltzal, Cpu.branch]
  split <;> refine ⟨?_, ?_⟩ <;> simp [setRegister_out0, setRegister_registers]

theorem frames_opBgezal (c : Cpu) (i : Instruction) : Frames c (c.opBgezal i) := by
  simp only [opBgezal, Cpu.branch]
  split <;> refine ⟨?_, ?_⟩ <;> simp [setRegister_out0, setRegister_registers]

theorem frames_opJ (c : Cpu) (i : Instruction) : Frames c (c.opJ i) := ⟨rfl, rfl⟩

theorem frames_opJal (c : Cpu) (i : Instruction) : Frames c (c.opJal i) := by
  simp only [opJal]
  refine ⟨?_, ?_⟩ <;> simp [setRegister_out0, setRegister_registers]

theorem frames_opBeq (c : Cpu) (i : Instruction) : Frames c (c.opBeq i) := by
  simp only [opBeq, Cpu.branch]
  split <;> exact ⟨rfl, rfl⟩

theorem frames_opBne (c : Cpu) (i : Instruction) : Frames c (c.opBne i) := by
  simp only [opBne, Cpu.branch]
  split <;> exact ⟨rfl, rfl⟩

theorem frames_opBlez (c : Cpu) (i : Instruction) : Frames c (c.opBlez i) := by
  simp only [opBlez, Cpu.branch]
  split <;> exact ⟨rfl, rfl⟩

theorem frames_opBgtz (c : Cpu) (i : Instruction) : Frames c (c.opBgtz i) := by
  simp only [opBgtz, Cpu.branch]
  split <;> exact ⟨rfl, rfl⟩

theorem frames_opAddi (c : Cpu) (i : Instruction) : Frames c (c.opAddi i) := by
  simp only [opAddi]
  split
  · exact frames_raiseException ..
  · refine ⟨?_, ?_⟩ <;> simp [setRegister_out0, setRegister_registers]

theorem frames_opAddiu (c : Cpu) (i : Instruction) : Frames c (c.opAddiu i) := by
  refine ⟨?_, ?_⟩ <;> simp [opAddiu, setRegister_out0, setRegister_registers]

theorem frames_opSlti (c : Cpu) (i : Instruction) : Frames c (c.opSlti i) := by
  refine ⟨?_, ?_⟩ <;> simp [opSlti, setRegister_out0, setRegister_registers]

theorem frames_opSltiu (c : Cpu) (i : Instruction) : Frames c (c.opSltiu i) := by
  refine ⟨?_, ?_⟩ <;> simp [opSltiu, setRegister_out0, setRegister_registers]

theorem frames_opAndi (c : Cpu) (i : Instruction) : Frames c (c.opAndi i) := by
  refine ⟨?_, ?_⟩ <;> simp [opAndi, setRegister_out0, setRegister_registers]

theorem frames_opOri (c : Cpu) (i : Instruction) : Frames c (c.opOri i) := by
  refine ⟨?_, ?_⟩ <;> simp [opOri, setRegister_out0, setRegister_registers]

theorem frames_opXori (c : Cpu) (i : Instruction) : Frames c (c.opXori i) := by
  refine ⟨?_, ?_⟩ <;> simp [opXori, setRegister_out0, setRegister_registers]

theorem frames_opLui (c : Cpu) (i : Instruction) : Frames c (c.opLui i) := by
  refine ⟨?_, ?_⟩ <;> simp [opLui, setRegister_out0, setRegister_registers]

theorem frames_opMfc0 (c : Cpu) (i : Instruction) : Frames c (c.opMfc0 i) := by
  refine ⟨?_, ?_⟩ <;> simp [opMfc0, setRegister_out0, setRegister_registers]

theorem frames_opMtc0 (c : Cpu) (i : Instruction) : Frames c (c.opMtc0 i) := ⟨rfl, rfl⟩

theorem frames_opRfe (c : Cpu) (i : Instruction) : Frames c (c.opRfe i) := ⟨rfl, rfl⟩

theorem frames_opLb (c : Cpu) (i : Instruction) (e : Cpu) (h : c.opLb i = some e) :
    Frames c e := by
  simp only [opLb] at h
  split at h
  · exact (Option.some_inj.mp h) ▸ ⟨rfl, rfl⟩
  · obtain ⟨v, hv, rfl⟩ := Option.map_eq_some'.mp h
    exact ⟨rfl, rfl⟩

theorem frames_opLwl (c : Cpu) (i : Instruction) (e : Cpu) (h : c.opLwl i = some e) :
    Frames c e := by
  simp only [opLwl] at h
  obtain ⟨v, hv, rfl⟩ := Option.map_eq_some'.mp h
  exact ⟨rfl, rfl⟩

theorem frames_opLh (c : Cpu) (i : Instruction) (e : Cpu) (h : c.opLh i = some e) :
    Frames c e := by
  simp only [opLh] at h
  split at h
  · exact (Option.some_inj.mp h) ▸ ⟨rfl, rfl⟩
  · split at h
    · exact (Option.some_inj.mp h) ▸ frames_raiseException ..
    · obtain ⟨v, hv, rfl⟩ := Option.map_eq_some'.mp h
      exact ⟨rfl, rfl⟩

theorem frames_opLw (c : Cpu) (i : Instruction) (e : Cpu) (h : c.opLw i = some e) :
    Frames c e := by
  simp only [opLw] at h
  split at h
  · exact (Option.some_inj.mp h) ▸ ⟨rfl, rfl⟩
  · split at h
    · exact (Option.some_inj.mp h) ▸ frames_raiseException ..
    · obtain ⟨v, hv, rfl⟩ := Option.map_eq_some'.mp h
      exact ⟨rfl, rfl⟩

theorem frames_opLbu (c : Cpu) (i : Instruction) (e : Cpu) (h : c.opLbu i = some e) :
    Frames c e := by
  simp only [opLbu] at h
  split at h
  · exact (Option.some_inj.mp h) ▸ ⟨rfl, rfl⟩
  · obtain ⟨v, hv, rfl⟩ := Option.map_eq_some'.mp h
    exact ⟨rfl, rfl⟩

theorem frames_opLhu (c : Cpu) (i : Instruction) (e : Cpu) (h : c.opLhu i = some e) :
    Frames c e := by
  simp only [opLhu] at h
  split at h
  · exact (Option.some_inj.mp h) ▸ ⟨rfl, rfl⟩
  · split at h
    · exact (Option.some_inj.mp h) ▸ frames_raiseException ..
    · obtain ⟨v, hv, rfl⟩ := Option.map_eq_some'.mp h
      exact ⟨rfl, rfl⟩

theorem frames_opLwr (c : Cpu) (i : Instruction) (e : Cpu) (h : c.opLwr i = some e) :
    Frames c e := by
  simp only [opLwr] at h
  obtain ⟨v, hv, rfl⟩ := Option.map_eq_some'.mp h
  exact ⟨rfl, rfl⟩

theorem frames_opSb (c : Cpu) (i : Instruction) (e : Cpu) (h : c.opSb i = some e) :
    Frames c e := by
  simp only [opSb] at h
  split at h
  · exact (Option.some_inj.mp h) ▸ ⟨rfl, rfl⟩
  · obtain ⟨v, hv, rfl⟩ := Option.map_eq_some'.mp h
    exact ⟨rfl, rfl⟩

theorem frames_opSh (c : Cpu) (i : Instruction) (e : Cpu) (h : c.opSh i = some e) :
    Frames c e := by
  simp only [opSh] at h
  split at h
  · exact (Option.some_inj.mp h) ▸ ⟨rfl, rfl⟩
  · split at h
    · exact (Option.some_inj.mp h) ▸ frames_raiseException ..
    · obtain ⟨v, hv, rfl⟩ := Option.map_eq_some'.mp h
      exact ⟨rfl, rfl⟩

theorem frames_opSwl (c : Cpu) (i : Instruction) (e : Cpu) (h : c.opSwl i = some e) :
    Frames c e := by
  simp only [opSwl] at h
  obtain ⟨v, hv, h2⟩ := Option.bind_eq_some.mp h
  obtain ⟨b, hb, rfl⟩ := Option.map_eq_some'.mp h2
  exact ⟨rfl, rfl⟩

theorem frames_opSw (c : Cpu) (i : Instruction) (e : Cpu) (h : c.opSw i = some e) :
    Frames c e := by
  simp only [opSw] at h
  split at h
  · exact (Option.some_inj.mp h) ▸ ⟨rfl, rfl⟩
  · split at h
    · exact (Option.some_inj.mp h) ▸ frames_raiseException ..
    · obtain ⟨v, hv, rfl⟩ := Option.map_eq_some'.mp h
      exact ⟨rfl, rfl⟩

theorem frames_opSwr (c : Cpu) (i : Instruction) (e : Cpu) (h : c.opSwr i = some e) :
    Frames c e := by
  simp only [opSwr] at h
  split at h
  · exact (Option.some_inj.mp h) ▸ ⟨rfl, rfl⟩
  · obtain ⟨v, hv, h2⟩ := Option.bind_eq_some.mp h
    obtain ⟨b, hb, rfl⟩ := Option.map_eq_some'.mp h2
    exact ⟨rfl, rfl⟩

section ExecuteFrame

attribute [local irreducible] opSll opSrl opSra opSllv opSrlv opSrav opJr
attribute [local irreducible] opJalr opSyscall opBreak opMfhi opMthi opMflo
attribute [local irreducible] opMtlo opMult opMultu opDiv opDivu opAdd opAddu
attribute [local irreducible] opSub opSubu opAnd opOr opXor opNor opSlt opSltu
attribute [local irreducible] opBltz opBgez opBltzal opBgezal opJ opJal opBeq
attribute [local irreducible] opBne opBlez opBgtz opAddi opAddiu opSlti opSltiu
attribute [local irreducible] opAndi opOri opXori opLui opMfc0 opMtc0 opRfe
attribute [local irreducible] opLb opLh opLwl opLw opLbu opLhu opLwr opSb opSh
attribute [local irreducible] opSwl opSw opSwr raiseException

/-- Every path of `Cpu::execute` leaves the visible register file and the
shadow slot of register 0 unchanged: all register writes go through
`set_register`. -/
theorem execute_frame (c : Cpu) (i : Instruction) (e : Cpu)
    (h : c.execute i = some e) : Frames c e := by
  unfold execute at h
  split at h <;> try split at h <;> try split at h
  all_goals
    first
    | exact Option.noConfusion h
    | exact frames_opLb c i e h
    | exact frames_opLh c i e h
    | exact frames_opLwl c i e h
    | exact frames_opLw c i e h
    | exact frames_opLbu c i e h
    | exact frames_opLhu c i e h
    | exact frames_opLwr c i e h
    | exact frames_opSb c i e h
    | exact frames_opSh c i e h
    | exact frames_opSwl c i e h
    | exact frames_opSw c i e h
    | exact frames_opSwr c i e h
    | (injection h with h; subst h;
       first
       | exact frames_opSll c i
       | exact frames_opSrl c i
       | exact frames_opSra c i
       | exact frames_opSllv c i
       | exact frames_opSrlv c i
       | exact frames_opSrav c i
       | exact frames_opJr c i
       | exact frames_opJalr c i
       | exact frames_opSyscall c i
       | exact frames_opBreak c i
       | exact frames_opMfhi c i
       | exact frames_opMthi c i
       | exact frames_opMflo c i
       | exact frames_opMtlo c i
       | exact frames_opMult c i
       | exact frames_opMultu c i
       | exact frames_opDiv c i
       | exact frames_opDivu c i
       | exact frames_opAdd c i
       | exact frames_opAddu c i
       | exact frames_opSub c i
       | exact frames_opSubu c i
       | exact frames_opAnd c i
       | exact frames_opOr c i
       | exact frames_opXor c i
       | exact frames_opNor c i
       | exact frames_opSlt c i
       | exact frames_opSltu c i
       | exact frames_opBltz c i
       | exact frames_opBgez c i
       | exact frames_opBltzal c i
       | exact frames_opBgezal c i
       | exact frames_opJ c i
       | exact frames_opJal c i
       | exact frames_opBeq c i
       | exact frames_opBne c i
       | exact frames_opBlez c i
       | exact frames_opBgtz c i
       | exact frames_opAddi c i
       | exact frames_opAddiu c i
       | exact frames_opSlti c i
       | exact frames_opSltiu c i
       | exact frames_opAndi c i
       | exact frames_opOri c i
       | exact frames_opXori c i
       | exact frames_opLui c i
       | exact frames_opMfc0 c i
       | exact frames_opMtc0 c i
       | exact frames_opRfe c i
       | exact frames_raiseException c i excSyscall
       | exact frames_raiseException c i excCoprocessor
       | exact frames_raiseException c i excRi)

end ExecuteFrame

/-! ## Lemmas about the pipeline stages of `Cpu::step` -/

theorem applyLoadDelay_pc (c : Cpu) : (applyLoadDelay c).pc = c.pc := by
  unfold applyLoadDelay
  split
  · rw [setRegister_pc]
  · rfl

theorem applyLoadDelay_registers (c : Cpu) :
    (applyLoadDelay c).registers = c.registers := by
  unfold applyLoadDelay
  split
  · rw [setRegister_registers]
  · rfl

theorem applyLoadDelay_out0 (c : Cpu) :
    (applyLoadDelay c).outRegisters 0 = c.outRegisters 0 := by
  unfold applyLoadDelay
  split
  · rw [setRegister_out0]
  · rfl

theorem afterFetchAdvance_registers (c : Cpu) :
    (afterFetchAdvance c).registers = c.registers := by
  simp only [afterFetchAdvance]
  split <;> rfl

theorem afterFetchAdvance_outRegisters (c : Cpu) :
    (afterFetchAdvance c).outRegisters = c.outRegisters := by
  simp only [afterFetchAdvance]
  split <;> rfl

theorem afterFetchAdvance_loadDelay (c : Cpu) :
    (afterFetchAdvance c).loadDelayRegister = c.loadDelayRegister := by
  simp only [afterFetchAdvance]
  split <;> rfl

theorem afterFetchAdvance_pc_of_none (c : Cpu) (h : c.branchDelayPc = none) :
    (afterFetchAdvance c).pc = w32 (c.pc + 4) := by
  simp only [afterFetchAdvance, h]

/-- A successful `Cpu::step` factors into the execute stage on the
mid-pipeline state followed by the promotion of the shadow file. -/
theorem step_eq (c : Cpu) (w : Nat) (t : Cpu)
    (hread : c.bus.read_u32 c.pc = some w) (hstep : Cpu.step c = some t) :
    ∃ e, Cpu.execute (applyLoadDelay (afterFetchAdvance c)) ⟨w, c.pc⟩ = some e ∧
      t = { e with registers := e.outRegisters } := by
  unfold Cpu.step at hstep
  split at hstep
  · exact Option.noConfusion hstep
  · simp only [hread] at hstep
    split at hstep
    · exact Option.noConfusion hstep
    · next e heq => exact ⟨e, heq, (Option.some_inj.mp hstep).symm⟩

end Cpu

/-! ## Numeric conversion lemmas -/

theorem toI32_ofI32 {x : Int} (h1 : -2147483648 ≤ x) (h2 : x < 2147483648) :
    toI32 (ofI32 x) = x := by
  unfold toI32 ofI32
  split <;> omega

theorem toI32_bounds {u : Nat} (hu : u < 4294967296) :
    -2147483648 ≤ toI32 u ∧ toI32 u < 2147483648 := by
  unfold toI32
  split <;> omega

theorem toI32_eq_min_iff {u : Nat} (hu : u < 4294967296) :
    toI32 u = -2147483648 ↔ u = 2147483648 := by
  unfold toI32
  split <;> omega

theorem natAbs_tmod (a b : Int) : (a.tmod b).natAbs = a.natAbs % b.natAbs := by
  cases a <;> cases b <;> simp only [Int.tmod, Int.natAbs_neg] <;> rfl

theorem w32_w32_add (x y : Nat) : w32 (w32 x + y) = w32 (x + y) := by
  unfold w32
  omega

theorem Ram.write_u8_data (r : Ram) (o v a : Nat) :
    (r.write_u8 o v).data a = if a = o then v else r.data a := rfl

/-! ## Lemmas about the channel-control byte decode -/

theorem and32_shift (v : Nat) : (v &&& 32) >>> 5 = 0 ∨ (v &&& 32) >>> 5 = 1 := by
  rw [show (32 : Nat) = 2 ^ 5 by norm_num, Nat.and_two_pow]
  cases v.testBit 5 <;> simp

/-- A byte store to channel-control offset 0x0B decodes both the busy flag
and the trigger flag from bit 0 of the value. -/
theorem channel_write11 (ch : Channel) (v : Nat) :
    (ch.write_u8 11 v).map Channel.trigger =
      some (if v % 2 = 1 then Trigger.ManualStart else Trigger.Normal) ∧
    (ch.write_u8 11 v).map Channel.busy =
      some (if v % 2 = 1 then Busy.Busy else Busy.Completed) := by
  have hmod : v &&& 1 = v % 2 := Nat.and_one_is_mod v
  rcases Nat.mod_two_eq_zero_or_one v with h2 | h2 <;>
    rcases and32_shift v with h5 | h5 <;>
      simp [Channel.write_u8, Channel.decodeBusy, Channel.decodeTrigger,
        Channel.decodeUnknownPause, hmod, h2, h5]

/-! ## The claims -/

set_option maxRecDepth 10000 in
/-- C1: load-delay slot semantics.  When a load executed at step N left a
pending load `(R, V)` (R nonzero), then during step N+1 the register file
seen by the executed instruction still maps R to its prior value while the
shadow file already holds V, and the value of R after step N+1 — visible
from instruction N+2 onward — is exactly whatever the executed instruction
left in the shadow slot of R: V if it did not write R, its own (newer)
write otherwise, since `set_register` lands after the promotion.  The last
conjunct shows a successful LW issues only a pending load `(rt, v)` with
`v` the word read from the bus, touching neither register file at step N
itself. -/
theorem load_delay_slot_semantics (c : Cpu) (R V : Nat) (hR : R ≠ 0)
    (hld : c.loadDelayRegister = some (R, V)) :
    (Cpu.applyLoadDelay (Cpu.afterFetchAdvance c)).registers R = c.registers R ∧
    (Cpu.applyLoadDelay (Cpu.afterFetchAdvance c)).outRegisters R = V ∧
    (∀ w e t, c.bus.read_u32 c.pc = some w →
      Cpu.execute (Cpu.applyLoadDelay (Cpu.afterFetchAdvance c)) ⟨w, c.pc⟩ = some e →
      Cpu.step c = some t → t.registers R = e.outRegisters R) ∧
    (∀ (c' : Cpu) (w p : Nat) (e' : Cpu), (w >>> 26) &&& 63 = 35 →
      ¬ c'.cacheIsolated → Cpu.effAddress c' ⟨w, p⟩ % 4 = 0 →
      Cpu.execute c' ⟨w, p⟩ = some e' →
      e'.registers = c'.registers ∧ e'.outRegisters = c'.outRegisters ∧
      ∃ v, e'.loadDelayRegister = some ((w >>> 16) &&& 31, v) ∧
        c'.bus.read_u32 (Cpu.effAddress c' ⟨w, p⟩) = some v) := by
  have hld' : (Cpu.afterFetchAdvance c).loadDelayRegister = some (R, V) := by
    rw [Cpu.afterFetchAdvance_loadDelay]; exact hld
  refine ⟨?_, ?_, ?_, ?_⟩
  · simp only [Cpu.applyLoadDelay, hld']
    rw [Cpu.setRegister_registers, Cpu.afterFetchAdvance_registers]
  · simp only [Cpu.applyLoadDelay, hld']
    exact Cpu.setRegister_out_self _ _ _ hR
  · intro w e t hread hex hstep
    obtain ⟨e2, hex2, ht⟩ := Cpu.step_eq c w t hread hstep
    rw [hex] at hex2
    have he : e = e2 := Option.some_inj.mp hex2
    subst he ht
    rfl
  · intro c' w p e' hop hiso hal hex
    have hop' : Instruction.op ⟨w, p⟩ = 35 := hop
    rw [Cpu.execute, hop'] at hex
    rw [Cpu.opLw] at hex
    rw [if_neg hiso, if_neg (by rw [hal]; trivial)] at hex
    obtain ⟨v, hv, he⟩ := Option.map_eq_some'.mp hex
    subst he
    refine ⟨rfl, rfl, v, ?_, hv⟩
    have hrt : Instruction.rt ⟨w, p⟩ = (w >>> 16) &&& 31 := rfl
    rw [hrt]

/-- Witness for C1: a pending load of 0x42 into register 1 becomes visible
in register 1 after the next step (the next instruction, SLL r0, does not
write register 1). -/
theorem load_delay_slot_witness :
    ((Cpu.step pendingLoadCpu).map fun t => t.registers 1) = some 0x42 := by
  have h := load_delay_slot_semantics pendingLoadCpu 1 0x42 (by decide) rfl
  have hread : pendingLoadCpu.bus.read_u32 pendingLoadCpu.pc = some 0 := by decide
  have hex : Cpu.execute
      (Cpu.applyLoadDelay (Cpu.afterFetchAdvance pendingLoadCpu))
      ⟨0, pendingLoadCpu.pc⟩ =
      some (Cpu.applyLoadDelay (Cpu.afterFetchAdvance pendingLoadCpu)) := rfl
  cases hs : Cpu.step pendingLoadCpu with
  | none =>
    have hsome : (Cpu.step pendingLoadCpu).isSome = true := by decide
    rw [hs] at hsome
    exact Bool.noConfusion hsome
  | some t =>
    have hreg := h.2.2.1 0 _ t hread hex hs
    rw [Option.map_some', hreg, h.2.1]

/-- C2 (code bug): `Cpu::raise_exception` computes the branch-delay flag
`bd` but applies `cause |= 1 << 31` unconditionally, so CAUSE bit 31 (BD)
is set even for an exception raised outside a branch delay slot: here the
offending instruction's PC equals PC−4 (no delay slot) and CAUSE bit 31
was clear, yet it is set after the raise. -/
theorem cause_bd_set_unconditionally :
    ((Cpu.new bus0).cop0Registers 13).testBit 31 = false ∧
    (⟨12, 0xbfc00004⟩ : Instruction).pc =
      w32 ({ Cpu.new bus0 with pc := 0xbfc00008 }.pc + 4294967292) ∧
    ((raiseException { Cpu.new bus0 with pc := 0xbfc00008 } ⟨12, 0xbfc00004⟩
        excSyscall).cop0Registers 13).testBit 31 = true := by
  decide

/-- C3 counterexample: with the cache isolated (SR bit 16 set), SWL still
reads and writes RAM — the byte at address 0 changes from 0 to 0xAA — so
not every store is a no-op under isolation. -/
theorem cache_isolated_swl_writes_ram :
    Cpu.cacheIsolated isolatedCpu ∧
    (isolatedCpu).bus.ram.data 0 = 0 ∧
    (Cpu.opSwl isolatedCpu swlInstr).map (fun e => e.bus.ram.data 0) = some 0xAA := by
  decide

/-- C3 (amended): when SR bit 16 is set, the stores SB, SH, SW and the
loads LB, LH, LW, LBU, LHU return the state entirely unchanged (no bus
access, RAM untouched); SWL — and the loads LWL/LWR — bypass the
isolation check. -/
theorem cache_isolated_noop_ops (c : Cpu) (i : Instruction)
    (h : c.cacheIsolated) :
    c.opSb i = some c ∧ c.opSh i = some c ∧ c.opSw i = some c ∧
    c.opLb i = some c ∧ c.opLh i = some c ∧ c.opLw i = some c ∧
    c.opLbu i = some c ∧ c.opLhu i = some c := by
  refine ⟨?_, ?_, ?_, ?_, ?_, ?_, ?_, ?_⟩ <;>
    simp [Cpu.opSb, Cpu.opSh, Cpu.opSw, Cpu.opLb, Cpu.opLh, Cpu.opLw,
      Cpu.opLbu, Cpu.opLhu, h]

/-- Witness for C3: the isolated state really takes the no-op path. -/
theorem cache_isolated_noop_witness :
    Cpu.opSb isolatedCpu swlInstr = some isolatedCpu ∧
    Cpu.opSw isolatedCpu swlInstr = some isolatedCpu := by
  have h := cache_isolated_noop_ops isolatedCpu swlInstr (by decide)
  exact ⟨h.1, h.2.2.1⟩

/-- C4 counterexample: with channel 6 configured base = 0x0010_0000,
block size 4, to-RAM, step −4, immediate, busy, manual trigger, the
transfer leaves the word at RAM offset 0x0FFFF0 untouched (still 0, not
the claimed end marker 0x00FFFFFF) and does write the byte at 0x100002
(so bytes outside the four claimed words change). -/
theorem otc_transfer_counterexample :
    (Channel.transferImmediately otcChannel Ram.new).map
        (fun p => ramWord p.2 0xFFFF0) = some 0 ∧
    (Channel.transferImmediately otcChannel Ram.new).map
        (fun p => ramWord p.2 0xFFFF0) ≠ some 0xFFFFFF ∧
    (Channel.transferImmediately otcChannel Ram.new).map
        (fun p => p.2.data 0x100002) = some 0x10 := by
  decide

/-- C4 (amended): the configured OTC transfer writes exactly four
little-endian words — 0x00100000 at 0x100000, 0x00100000 at 0x0FFFFC,
0x000FFFFC at 0x0FFFF8 and the end marker 0x00FFFFFF at 0x0FFFF4 — leaves
every RAM byte outside 0x0FFFF4..0x100003 unchanged, and finishes the
channel (busy cleared, trigger cleared). -/
theorem otc_transfer_effect (ram : Ram) :
    Channel.transferImmediately otcChannel ram =
      some (Channel.finish otcChannel, otcResultRam ram) ∧
    ramWord (otcResultRam ram) 0x100000 = 0x100000 ∧
    ramWord (otcResultRam ram) 0xFFFFC = 0x100000 ∧
    ramWord (otcResultRam ram) 0xFFFF8 = 0xFFFFC ∧
    ramWord (otcResultRam ram) 0xFFFF4 = 0xFFFFFF ∧
    (Channel.finish otcChannel).busy = Busy.Completed ∧
    (Channel.finish otcChannel).trigger = Trigger.Normal ∧
    (∀ a, a < 0xFFFF4 ∨ 0x100003 < a → (otcResultRam ram).data a = ram.data a) := by
  refine ⟨rfl, ?_, ?_, ?_, ?_, rfl, rfl, ?_⟩
  · simp [ramWord, otcResultRam, Ram.write_u8]
  · simp [ramWord, otcResultRam, Ram.write_u8]
  · simp [ramWord, otcResultRam, Ram.write_u8]
  · simp [ramWord, otcResultRam, Ram.write_u8]
  · intro a ha
    simp only [otcResultRam]
    repeat rw [Ram.write_u8_data, if_neg (by omega)]

/-- Witness for C4's amended theorem at a concrete RAM and address. -/
theorem otc_transfer_effect_witness :
    Channel.transferImmediately otcChannel Ram.new =
      some (Channel.finish otcChannel, otcResultRam Ram.new) ∧
    (otcResultRam Ram.new).data 0 = Ram.new.data 0 := by
  have h := otc_transfer_effect Ram.new
  exact ⟨h.1, h.2.2.2.2.2.2.2 0 (by norm_num)⟩

/-- C5: DIV semantics.  Divide by zero sets HI to the dividend's `u32`
pattern and LO to 0xFFFFFFFF (dividend ≥ 0) or 1 (dividend < 0); the
overflow pair (0x80000000, −1) sets LO ← 0x80000000, HI ← 0; otherwise LO
is the quotient truncated toward zero, HI the corresponding remainder, and
`LO*t + HI = s` holds in signed arithmetic. -/
theorem div_semantics (c : Cpu) (i : Instruction)
    (hs : Cpu.register c i.rs < 4294967296)
    (ht : Cpu.register c i.rt < 4294967296) :
    (toI32 (c.register i.rt) = 0 →
      (c.opDiv i).hi = c.register i.rs ∧
      (c.opDiv i).lo = if 0 ≤ toI32 (c.register i.rs) then 4294967295 else 1) ∧
    (c.register i.rs = 2147483648 → toI32 (c.register i.rt) = -1 →
      (c.opDiv i).lo = 2147483648 ∧ (c.opDiv i).hi = 0) ∧
    (toI32 (c.register i.rt) ≠ 0 →
      ¬(c.register i.rs = 2147483648 ∧ toI32 (c.register i.rt) = -1) →
      toI32 ((c.opDiv i).lo) =
        Int.tdiv (toI32 (c.register i.rs)) (toI32 (c.register i.rt)) ∧
      toI32 ((c.opDiv i).hi) =
        Int.tmod (toI32 (c.register i.rs)) (toI32 (c.register i.rt)) ∧
      toI32 ((c.opDiv i).lo) * toI32 (c.register i.rt) + toI32 ((c.opDiv i).hi) =
        toI32 (c.register i.rs)) := by
  refine ⟨?_, ?_, ?_⟩
  · intro h0
    simp [Cpu.opDiv, h0]
  · intro h1 h2
    have hne : toI32 (Cpu.register c i.rt) ≠ 0 := by rw [h2]; decide
    simp [Cpu.opDiv, hne, h1, h2]
  · intro hne hnot
    have hlo : (c.opDiv i).lo =
        ofI32 (Int.tdiv (toI32 (c.register i.rs)) (toI32 (c.register i.rt))) := by
      simp [Cpu.opDiv, hne, hnot]
    have hhi : (c.opDiv i).hi =
        ofI32 (Int.tmod (toI32 (c.register i.rs)) (toI32 (c.register i.rt))) := by
      simp [Cpu.opDiv, hne, hnot]
    obtain ⟨hs1, hs2⟩ := toI32_bounds hs
    obtain ⟨ht1, ht2⟩ := toI32_bounds ht
    have hq : (Int.tdiv (toI32 (c.register i.rs)) (toI32 (c.register i.rt))).natAbs =
        (toI32 (c.register i.rs)).natAbs / (toI32 (c.register i.rt)).natAbs :=
      Int.natAbs_tdiv _ _
    have hr := natAbs_tmod (toI32 (c.register i.rs)) (toI32 (c.register i.rt))
    have hTpos : 0 < (toI32 (c.register i.rt)).natAbs := by omega
    have hrange_r : (Int.tmod (toI32 (c.register i.rs))
        (toI32 (c.register i.rt))).natAbs < (toI32 (c.register i.rt)).natAbs := by
      rw [hr]; exact Nat.mod_lt _ hTpos
    have hbr : -2147483648 ≤
        Int.tmod (toI32 (c.register i.rs)) (toI32 (c.register i.rt)) ∧
        Int.tmod (toI32 (c.register i.rs)) (toI32 (c.register i.rt)) <
          2147483648 := by
      omega
    have hbq : -2147483648 ≤
        Int.tdiv (toI32 (c.register i.rs)) (toI32 (c.register i.rt)) ∧
        Int.tdiv (toI32 (c.register i.rs)) (toI32 (c.register i.rt)) <
          2147483648 := by
      by_cases hT1 : (toI32 (c.register i.rt)).natAbs = 1
      · have hcases : toI32 (c.register i.rt) = 1 ∨ toI32 (c.register i.rt) = -1 := by
          omega
        rcases hcases with hT | hT
        · rw [hT, Int.tdiv_one]; omega
        · have hSne : c.register i.rs ≠ 2147483648 := fun hc => hnot ⟨hc, hT⟩
          have hSmin : toI32 (c.register i.rs) ≠ -2147483648 := by
            rw [Ne, toI32_eq_min_iff hs]; exact hSne
          have hA : (Int.tdiv (toI32 (c.register i.rs))
              (toI32 (c.register i.rt))).natAbs ≤ 2147483647 := by
            rw [hq, hT1]; omega
          omega
      · have h2ge : 2 ≤ (toI32 (c.register i.rt)).natAbs := by omega
        have hdivle : (toI32 (c.register i.rs)).natAbs /
            (toI32 (c.register i.rt)).natAbs ≤
            (toI32 (c.register i.rs)).natAbs / 2 :=
          Nat.div_le_div_left h2ge (by norm_num)
        have hA : (Int.tdiv (toI32 (c.register i.rs))
            (toI32 (c.register i.rt))).natAbs ≤ 1073741824 := by
          rw [hq]; omega
        omega
    refine ⟨?_, ?_, ?_⟩
    · rw [hlo, toI32_ofI32 hbq.1 hbq.2]
    · rw [hhi, toI32_ofI32 hbr.1 hbr.2]
    · rw [hlo, hhi, toI32_ofI32 hbq.1 hbq.2, toI32_ofI32 hbr.1 hbr.2,
        Int.mul_comm]
      exact Int.tdiv_add_tmod _ _

/-- Witness for C5: 7 divided by −3 gives LO = −2 and HI = 1. -/
theorem div_semantics_witness :
    toI32 ((Cpu.opDiv divCpu divInstr).lo) = -2 ∧
    toI32 ((Cpu.opDiv divCpu divInstr).hi) = 1 := by
  obtain ⟨hlo, hhi, _⟩ :=
    (div_semantics divCpu divInstr (by decide) (by decide)).2.2
      (by decide) (by decide)
  constructor
  · rw [hlo]; decide
  · rw [hhi]; decide

/-- C6 counterexample: with the cache isolated, an SW whose effective
address is unaligned takes the isolation early-return instead of raising
Ades — the state is returned unchanged (PC still at the reset vector, not
at an exception handler, CAUSE untouched, RAM untouched). -/
theorem sw_unaligned_isolated_counterexample :
    Cpu.cacheIsolated isolatedCpu ∧
    Cpu.effAddress isolatedCpu swUnalignedInstr % 4 ≠ 0 ∧
    (Cpu.opSw isolatedCpu swUnalignedInstr).map
      (fun e => (e.pc, e.cop0Registers 13, e.bus.ram.data 1)) =
      some (0xbfc00000, 0, 0) := by
  decide

/-- C6 (amended): when SR bit 16 is clear, an SW at an address that is not
4-aligned raises the Ades exception — the op reduces to
`raise_exception(.., Ades)`, which leaves the bus (hence all memory)
unchanged, jumps PC to the exception handler selected by SR.BEV, and ORs
the Ades code 5 into the CAUSE exception-code field (bits 2 and 4). -/
theorem sw_unaligned_raises_ades (c : Cpu) (i : Instruction)
    (hiso : ¬ c.cacheIsolated) (hal : c.effAddress i % 4 ≠ 0) :
    c.opSw i = some (raiseException c i excAdes) ∧
    (raiseException c i excAdes).bus = c.bus ∧
    (raiseException c i excAdes).pc =
      (if c.cop0Registers 12 &&& 4194304 ≠ 0 then 0xbfc00180 else 0x80000080) ∧
    ((raiseException c i excAdes).cop0Registers 13).testBit 2 = true ∧
    ((raiseException c i excAdes).cop0Registers 13).testBit 4 = true := by
  refine ⟨?_, rfl, ?_, ?_, ?_⟩
  · rw [Cpu.opSw, if_neg hiso, if_pos hal]
  · simp only [raiseException, Cpu.setCop0Register, Cpu.cop0Register]
    norm_num
  · simp only [raiseException, Cpu.setCop0Register, Cpu.cop0Register]
    norm_num [Nat.testBit_or]
    exact Or.inr (by decide)
  · simp only [raiseException, Cpu.setCop0Register, Cpu.cop0Register]
    norm_num [Nat.testBit_or]
    exact Or.inr (by decide)

/-- Witness for C6's amended theorem: a fresh CPU (cache not isolated,
BEV clear) executing the unaligned SW ends at handler 0x80000080. -/
theorem sw_unaligned_witness :
    Cpu.opSw (Cpu.new bus0) swUnalignedInstr =
      some (raiseException (Cpu.new bus0) swUnalignedInstr excAdes) ∧
    (raiseException (Cpu.new bus0) swUnalignedInstr excAdes).pc = 0x80000080 := by
  have h := sw_unaligned_raises_ades (Cpu.new bus0) swUnalignedInstr
    (by decide) (by decide)
  refine ⟨h.1, ?_⟩
  rw [h.2.2.1, if_neg (by decide)]

/-- C7: the register-0 invariant.  Writing register 0 through
`set_register` is a no-op on the whole state; a fresh CPU reads register 0
as 0 in both files; promoting a pending load aimed at register 0 changes
neither register file; and a step from any state where register 0 reads 0
in both files preserves that — so in every reachable state register 0
reads 0. -/
theorem register_zero_invariant :
    (∀ (c : Cpu) (v : Nat), Cpu.setRegister c 0 v = c) ∧
    (∀ b : Bus, (Cpu.new b).registers 0 = 0 ∧ (Cpu.new b).outRegisters 0 = 0) ∧
    (∀ (c : Cpu) (v : Nat), c.loadDelayRegister = some (0, v) →
      (Cpu.applyLoadDelay c).registers = c.registers ∧
      (Cpu.applyLoadDelay c).outRegisters = c.outRegisters) ∧
    (∀ c t : Cpu, c.registers 0 = 0 → c.outRegisters 0 = 0 →
      Cpu.step c = some t → t.registers 0 = 0 ∧ t.outRegisters 0 = 0) := by
  refine ⟨?_, ?_, ?_, ?_⟩
  · intro c v
    simp [Cpu.setRegister]
  · intro b
    exact ⟨rfl, rfl⟩
  · intro c v h
    simp [Cpu.applyLoadDelay, h, Cpu.setRegister]
  · intro c t h0 hout hstep
    cases hr : c.bus.read_u32 c.pc with
    | none =>
      unfold Cpu.step at hstep
      split at hstep
      · exact Option.noConfusion hstep
      · rw [hr] at hstep
        exact Option.noConfusion hstep
    | some w =>
      obtain ⟨e, hex, ht⟩ := Cpu.step_eq c w t hr hstep
      have hframe := Cpu.execute_frame _ _ _ hex
      have hmid_out : (Cpu.applyLoadDelay (Cpu.afterFetchAdvance c)).outRegisters 0
          = 0 := by
        rw [Cpu.applyLoadDelay_out0, Cpu.afterFetchAdvance_outRegisters]
        exact hout
      have he_out : e.outRegisters 0 = 0 := by rw [hframe.1]; exact hmid_out
      subst ht
      exact ⟨he_out, he_out⟩

/-- Witness for C7: one step from the reset state keeps register 0 at 0. -/
theorem register_zero_witness :
    ((Cpu.step (Cpu.new bus0)).map fun t => (t.registers 0, t.outRegisters 0)) =
      some (0, 0) := by
  cases hs : Cpu.step (Cpu.new bus0) with
  | none =>
    have hsome : (Cpu.step (Cpu.new bus0)).isSome = true := by decide
    rw [hs] at hsome
    exact Bool.noConfusion hsome
  | some t =>
    obtain ⟨h1, h2⟩ :=
      register_zero_invariant.2.2.2 (Cpu.new bus0) t rfl rfl hs
    rw [Option.map_some', h1, h2]

set_option maxRecDepth 10000 in
/-- C9: link-register inconsistency.  For a fetch outside any branch delay
slot at PC = P, a JALR writes P + 4 (the address of its own delay slot)
into rd, while JAL, BLTZAL and BGEZAL write P + 8 (the address after the
delay slot) into register 31 — JALR links `self.pc` where the others link
`self.pc + 4`. -/
theorem link_register_values (c : Cpu) :
    (∀ w t, c.branchDelayPc = none → c.bus.read_u32 c.pc = some w →
      (w >>> 26) &&& 63 = 0 → w &&& 63 = 9 → (w >>> 11) &&& 31 ≠ 0 →
      Cpu.step c = some t → t.registers ((w >>> 11) &&& 31) = w32 (c.pc + 4)) ∧
    (∀ w t, c.branchDelayPc = none → c.bus.read_u32 c.pc = some w →
      (w >>> 26) &&& 63 = 3 →
      Cpu.step c = some t → t.registers 31 = w32 (c.pc + 8)) ∧
    (∀ w t, c.branchDelayPc = none → c.bus.read_u32 c.pc = some w →
      (w >>> 26) &&& 63 = 1 → (w >>> 16) &&& 31 = 16 →
      Cpu.step c = some t → t.registers 31 = w32 (c.pc + 8)) ∧
    (∀ w t, c.branchDelayPc = none → c.bus.read_u32 c.pc = some w →
      (w >>> 26) &&& 63 = 1 → (w >>> 16) &&& 31 = 17 →
      Cpu.step c = some t → t.registers 31 = w32 (c.pc + 8)) := by
  have hpc : c.branchDelayPc = none →
      (Cpu.applyLoadDelay (Cpu.afterFetchAdvance c)).pc = w32 (c.pc + 4) := by
    intro hbd
    rw [Cpu.applyLoadDelay_pc, Cpu.afterFetchAdvance_pc_of_none c hbd]
  refine ⟨?_, ?_, ?_, ?_⟩
  · intro w t hbd hread hop hfunct hrd hstep
    obtain ⟨e, hex, ht⟩ := Cpu.step_eq c w t hread hstep
    have hop' : Instruction.op ⟨w, c.pc⟩ = 0 := hop
    have hfunct' : Instruction.funct ⟨w, c.pc⟩ = 9 := hfunct
    rw [Cpu.execute, hop', hfunct'] at hex
    have he : e = Cpu.opJalr (Cpu.applyLoadDelay (Cpu.afterFetchAdvance c))
        ⟨w, c.pc⟩ := (Option.some_inj.mp hex).symm
    subst he ht
    simp only [Cpu.opJalr, Instruction.rd]
    rw [Cpu.setRegister_out_self _ _ _ hrd]
    exact hpc hbd
  · intro w t hbd hread hop hstep
    obtain ⟨e, hex, ht⟩ := Cpu.step_eq c w t hread hstep
    have hop' : Instruction.op ⟨w, c.pc⟩ = 3 := hop
    rw [Cpu.execute, hop'] at hex
    have he : e = Cpu.opJal (Cpu.applyLoadDelay (Cpu.afterFetchAdvance c))
        ⟨w, c.pc⟩ := (Option.some_inj.mp hex).symm
    subst he ht
    simp only [Cpu.opJal]
    rw [Cpu.setRegister_out_self _ _ _ (by decide), hpc hbd, w32_w32_add]
  · intro w t hbd hread hop hbr hstep
    obtain ⟨e, hex, ht⟩ := Cpu.step_eq c w t hread hstep
    have hop' : Instruction.op ⟨w, c.pc⟩ = 1 := hop
    have hbr' : Instruction.branchOp ⟨w, c.pc⟩ = 16 := hbr
    rw [Cpu.execute, hop', hbr'] at hex
    have he : e = Cpu.opBltzal (Cpu.applyLoadDelay (Cpu.afterFetchAdvance c))
        ⟨w, c.pc⟩ := (Option.some_inj.mp hex).symm
    subst he ht
    simp only [Cpu.opBltzal, Cpu.branch]
    split <;> rw [Cpu.setRegister_out_self _ _ _ (by decide), hpc hbd, w32_w32_add]
  · intro w t hbd hread hop hbr hstep
    obtain ⟨e, hex, ht⟩ := Cpu.step_eq c w t hread hstep
    have hop' : Instruction.op ⟨w, c.pc⟩ = 1 := hop
    have hbr' : Instruction.branchOp ⟨w, c.pc⟩ = 17 := hbr
    rw [Cpu.execute, hop', hbr'] at hex
    have he : e = Cpu.opBgezal (Cpu.applyLoadDelay (Cpu.afterFetchAdvance c))
        ⟨w, c.pc⟩ := (Option.some_inj.mp hex).symm
    subst he ht
    simp only [Cpu.opBgezal, Cpu.branch]
    split <;> rw [Cpu.setRegister_out_self _ _ _ (by decide), hpc hbd, w32_w32_add]

/-- Witness for C9: a JALR fetched at the reset vector links
0xBFC00004 = P + 4 into rd = 31. -/
theorem link_register_witness :
    ((Cpu.step (cpuOnWord jalrWord)).map fun t => t.registers 31) =
      some 0xbfc00004 := by
  cases hs : Cpu.step (cpuOnWord jalrWord) with
  | none =>
    have hsome : (Cpu.step (cpuOnWord jalrWord)).isSome = true := by decide
    rw [hs] at hsome
    exact Bool.noConfusion hsome
  | some t =>
    have h := (link_register_values (cpuOnWord jalrWord)).1 jalrWord t rfl
      (by decide) (by decide) (by decide) (by decide) hs
    rw [show (jalrWord >>> 11) &&& 31 = 31 from by decide] at h
    rw [Option.map_some', h]
    decide

/-- C8 (code bug): GP1 command 0x04000002 has opcode 0x04 and its two-bit
field (bits 0..1) is 2, which should select CPU→GPU per the claim and the
psx-spx reference the code cites; but `op_dma_direction` masks the command
with 0x1, so the stored direction becomes Off — the CpuToGpu and GpuToCpu
match arms are unreachable. -/
theorem gp1_dma_direction_bug :
    gp1Opcode 0x04000002 = 4 ∧
    0x04000002 &&& 3 = 2 ∧
    opDmaDirection 0x04000002 = some DmaDirection.Off := by
  decide

/-- C10: a byte b stored to a DMA channel's control register at byte
offset 0x0B decodes the manual-trigger flag from bit 0 of b — because
`value & (0b00010000) >> 4` parses as `value & 1` — so bit 4 (the
documented manual-start position, bit 28 of the word) has no effect on the
trigger, and after any such write the trigger flag equals the busy flag. -/
theorem channel_trigger_decodes_bit0 (ch : Channel) (b : Nat) :
    ((ch.write_u8 11 b).map Channel.trigger =
      some (if b.testBit 0 then Trigger.ManualStart else Trigger.Normal)) ∧
    ((ch.write_u8 11 (b &&& 239)).map Channel.trigger =
      (ch.write_u8 11 b).map Channel.trigger) ∧
    ((ch.write_u8 11 b).map Channel.trigger = some Trigger.ManualStart ↔
      (ch.write_u8 11 b).map Channel.busy = some Busy.Busy) := by
  obtain ⟨ht, hbusy⟩ := channel_write11 ch b
  obtain ⟨ht2, _⟩ := channel_write11 ch (b &&& 239)
  have hm : (b &&& 239) % 2 = b % 2 := by
    rw [← Nat.and_one_is_mod, Nat.and_assoc,
      show (239 : Nat) &&& 1 = 1 from by decide, Nat.and_one_is_mod]
  rcases Nat.mod_two_eq_zero_or_one b with h2 | h2 <;>
    simp [ht, ht2, hbusy, hm, h2, Nat.testBit_zero]

end HyperPsx
